import Mathlib

/-!
# Laser pointer application (`laser_pointer.c`)

A shallow embedding of the control code of the laser pointer application:
the power driver `attempt_set_5v_state`, the helper `update_pointer_state`,
the event loop of `laser_pointer_app` and the draw callback
`render_callback`, followed by the properties proved about them.

Conventions of the embedding.

* The 5V (OTG) rail is an explicit record `Hw`: the enabled flag read by
  `furi_hal_power_is_otg_enabled` and two counters of the primitive calls
  issued so far.  The result of the k-th call of `furi_hal_power_enable_otg`
  is given by an outcome function `outcomes : Nat → Bool`.
* The message queue is the list of results that successive calls of
  `furi_message_queue_get` deliver: `some e` for `FuriStatusOk` with event
  `e`, `none` for any other status.  When the list is used up the loop is
  blocked in `furi_message_queue_get` (the wait is `FuriWaitForever`).
* The display surface is the record `Canvas`: the font selected and the list
  of texts drawn so far.
* Logging macros (`FURI_LOG_T`, `FURI_LOG_I`, `FURI_LOG_E`) have no effect on
  the modelled state and are left out.
-/

namespace LaserPointer

/-! ## Platform types -/

/-- Modelled from the spec: the key enumeration of an input event (section 3,
`key: enum{Ok,Back,Up,Down,Left,Right}`); its declaration lives in the
platform headers. The constructor names are the ones the source uses. -/
inductive InputKey where
  | InputKeyUp
  | InputKeyDown
  | InputKeyRight
  | InputKeyLeft
  | InputKeyOk
  | InputKeyBack
  deriving DecidableEq, Repr

/-- Modelled from the spec: the kind enumeration of an input event (section 3,
`kind: enum{Press,Release,Short,Long}`); its declaration lives in the
platform headers. The constructor names are the ones the source uses. -/
inductive InputType where
  | InputTypePress
  | InputTypeRelease
  | InputTypeShort
  | InputTypeLong
  deriving DecidableEq, Repr

/-- Modelled from the spec: the platform input event, reduced to the two
fields the source reads, `key` and `type`. -/
structure InputEvent where
  key : InputKey
  type : InputType
  deriving DecidableEq, Repr

/-- Modelled from the spec: status codes of the platform calls; the source
only compares against `FuriStatusOk`. -/
inductive FuriStatus where
  | FuriStatusOk
  | FuriStatusError
  | FuriStatusErrorTimeout
  | FuriStatusErrorResource
  deriving DecidableEq, Repr

open InputKey InputType FuriStatus

/-- Modelled from the spec: the mutual-exclusion lock (section 4.2), seen from
one acquiring thread: `busy_ms` is the time for which another thread keeps
holding the lock (0 when it is free). -/
structure FuriMutex where
  busy_ms : Nat
  deriving DecidableEq, Repr

/-- Modelled from the spec: the lock wait of section 4.2. With no timeout
(`FuriWaitForever`, here `none`) the call waits indefinitely and obtains the
lock; with `some t` it waits up to `t` ms and times out when the lock is held
for longer. -/
def furi_mutex_acquire (mutex : FuriMutex) (timeout : Option Nat) : FuriStatus :=
  match timeout with
  | none => FuriStatusOk
  | some t => if mutex.busy_ms ≤ t then FuriStatusOk else FuriStatusErrorTimeout

/-- The timeout value `FuriWaitForever`. -/
def FuriWaitForever : Option Nat := none

/-! ## Data model of the source (lines 13-36) -/

/-- The enum `AppEventType` (lines 13-16). -/
inductive AppEventType where
  | AppEventTypeKey
  deriving DecidableEq, Repr

open AppEventType

/-- The struct `AppEvent` (lines 18-22). -/
structure AppEvent where
  type : AppEventType
  input : InputEvent
  deriving DecidableEq, Repr

/-- The struct `AppData` (lines 24-30); the `FuriString` buffer is its text. -/
structure AppData where
  buffer : String
  pressed : Bool
  keep_on : Bool
  short_expect_release : Bool
  deriving DecidableEq, Repr

/-- The struct `AppContext` (lines 32-36) without the queue handle: the queue
is passed to the event loop as the list of results it delivers. -/
structure AppContext where
  mutex : FuriMutex
  data : AppData
  deriving DecidableEq, Repr

/-! ## Power primitive -/

/-- State of the 5V output: the enabled flag and the number of enable and
disable primitive calls issued so far. -/
structure Hw where
  otg_enabled : Bool
  enable_calls : Nat
  disable_calls : Nat
  deriving DecidableEq, Repr

/-- Modelled from the spec: `isEnabled() -> bool` of the power primitive
(section 6), reading the enabled flag. -/
def furi_hal_power_is_otg_enabled (hw : Hw) : Bool :=
  hw.otg_enabled

/-- Modelled from the spec: `enable() -> bool` of the power primitive
(section 6). The k-th call (counting from 0) succeeds when `outcomes k` holds;
a successful call turns the output on, a failed call leaves the flag as it
was. -/
def furi_hal_power_enable_otg (outcomes : Nat → Bool) (hw : Hw) : Bool × Hw :=
  let ok := outcomes hw.enable_calls
  (ok, { otg_enabled := if ok then true else hw.otg_enabled,
         enable_calls := hw.enable_calls + 1,
         disable_calls := hw.disable_calls })

/-- Modelled from the spec: `disable()` of the power primitive (section 6),
which turns the output off. -/
def furi_hal_power_disable_otg (hw : Hw) : Hw :=
  { otg_enabled := false,
    enable_calls := hw.enable_calls,
    disable_calls := hw.disable_calls + 1 }

/-- Number of primitive calls (enable and disable) issued so far. -/
def Hw.calls (hw : Hw) : Nat :=
  hw.enable_calls + hw.disable_calls

/-! ## `attempt_set_5v_state` (lines 70-97) -/

/-- The loop `while(attempts-- > 0) { ... }` of lines 77-90, started with the
given value of `attempts` and of `success`. The test reads `attempts` before
the decrement, so the body runs once for each of the values `attempts`,
`attempts - 1`, ..., 1 unless a `break` leaves the loop (the decrement that
follows the failing test wraps the `uint8_t` to 255, a value never read). In
the enable branch a successful `furi_hal_power_enable_otg` sets `success`
and breaks; the disable branch calls `furi_hal_power_disable_otg` and falls
through to the next iteration. -/
def attempt_set_5v_state_loop (outcomes : Nat → Bool) (enable : Bool) :
    Nat → Bool → Hw → Bool × Hw
  | 0, success, hw => (success, hw)
  | attempts + 1, success, hw =>
    if enable then
      match furi_hal_power_enable_otg outcomes hw with
      | (true, hw1) => (true, hw1)
      | (false, hw1) => attempt_set_5v_state_loop outcomes enable attempts success hw1
    else
      attempt_set_5v_state_loop outcomes enable attempts success
        (furi_hal_power_disable_otg hw)

/-- The function `attempt_set_5v_state` (lines 70-97): the returned pair is
the `bool` result and the hardware state after the call. -/
def attempt_set_5v_state (outcomes : Nat → Bool) (enable : Bool) (hw : Hw) : Bool × Hw :=
  if furi_hal_power_is_otg_enabled hw == enable then
    (true, hw)
  else
    attempt_set_5v_state_loop outcomes enable 5 false hw

/-! ## Event loop of `laser_pointer_app` (lines 106-196) -/

/-- State threaded through the event loop: the application context, the
hardware, the loop variable `processing`, and two observation logs: the
arguments of the calls of `attempt_set_5v_state` made so far (oldest first)
and the number of `view_port_update` calls. -/
structure LoopState where
  ctx : AppContext
  hw : Hw
  processing : Bool
  requests : List Bool
  repaints : Nat
  deriving DecidableEq, Repr

/-- Replace the data record of the context (a write through
`app_context->data`). -/
def LoopState.setData (s : LoopState) (d : AppData) : LoopState :=
  { s with ctx := { s.ctx with data := d } }

/-- The function `update_pointer_state` (lines 99-104). -/
def update_pointer_state (outcomes : Nat → Bool) (s : LoopState) : LoopState :=
  if furi_mutex_acquire s.ctx.mutex FuriWaitForever == FuriStatusOk then
    let enable := s.ctx.data.pressed || s.ctx.data.keep_on
    let r := attempt_set_5v_state outcomes enable s.hw
    { s with hw := r.2, requests := s.requests ++ [enable] }
  else
    s

/-- The key handling of lines 142-173, run when `event.type == AppEventTypeKey`. -/
def handle_key_event (event : AppEvent) (s : LoopState) : LoopState :=
  -- lines 142-147
  let s1 :=
    if event.input.key == InputKeyOk && event.input.type == InputTypePress then
      if furi_mutex_acquire s.ctx.mutex FuriWaitForever == FuriStatusOk then
        s.setData { s.ctx.data with pressed := true }
      else s
    else s
  -- lines 149-173
  if event.input.key == InputKeyBack then
    { s1 with processing := false }
  else if event.input.type == InputTypeShort && event.input.key == InputKeyOk then
    if furi_mutex_acquire s1.ctx.mutex FuriWaitForever == FuriStatusOk then
      s1.setData { s1.ctx.data with
        keep_on := !s1.ctx.data.keep_on,
        pressed := false,
        short_expect_release := true }
    else s1
  else if event.input.key == InputKeyOk &&
      (event.input.type == InputTypeRelease || event.input.type == InputTypeLong) then
    if furi_mutex_acquire s1.ctx.mutex FuriWaitForever == FuriStatusOk then
      if s1.ctx.data.short_expect_release then
        s1.setData { s1.ctx.data with short_expect_release := false }
      else
        s1.setData { s1.ctx.data with
          pressed := if event.input.type == InputTypeRelease then false else true }
    else s1
  else s1

/-- One pass through the body of the `do ... while(processing)` loop
(lines 135-181), given the result of `furi_message_queue_get`. -/
def loop_body (outcomes : Nat → Bool) (got : Option AppEvent) (s : LoopState) : LoopState :=
  match got with
  | some event =>
    let s1 := if event.type == AppEventTypeKey then handle_key_event event s else s
    let s2 := update_pointer_state outcomes s1
    { s2 with repaints := s2.repaints + 1 }
  | none =>
    { s with processing := false }

/-- The loop `do { ... } while(processing)` of lines 134-182 over the results
the queue delivers. When the list is used up the loop is waiting in
`furi_message_queue_get` and the state is returned with `processing` still
true. -/
def main_loop (outcomes : Nat → Bool) : List (Option AppEvent) → LoopState → LoopState
  | [], s => s
  | got :: rest, s =>
    let s1 := loop_body outcomes got s
    if s1.processing then main_loop outcomes rest s1 else s1

/-- Outcome of running `laser_pointer_app`: the state when the loop stopped (or
blocked) and the value returned, `none` while the loop is still waiting for
an event. -/
structure AppRun where
  final : LoopState
  returned : Option Int
  deriving DecidableEq, Repr

/-- The function `laser_pointer_app` (lines 106-196). `mem` gives the flags
found in the freshly allocated `AppData` (the source does not assign them),
`mutex` the lock, `hw` the hardware state at startup and `queue` the results
of the successive `furi_message_queue_get` calls. The teardown of lines
184-193 frees resources and touches neither the flags nor the hardware. -/
def laser_pointer_app (outcomes : Nat → Bool) (hw : Hw) (mutex : FuriMutex) (mem : AppData)
    (queue : List (Option AppEvent)) : AppRun :=
  let ctx : AppContext := { mutex := mutex, data := { mem with buffer := "" } }
  -- line 116
  let hw1 := (attempt_set_5v_state outcomes false hw).2
  let s0 : LoopState :=
    { ctx := ctx, hw := hw1, processing := true, requests := [false], repaints := 0 }
  let s := main_loop outcomes queue s0
  { final := s, returned := if s.processing then none else some 0 }

/-! ## The transition table of the specification (section 4.3) -/

/-- The record `ButtonState` of the specification (section 3). -/
structure ButtonState where
  pressed : Bool
  keepOn : Bool
  shortPressExpectRelease : Bool
  deriving DecidableEq, Repr

/-- The derived `OutputSignal` of the specification: `pressed OR keepOn`. -/
def ButtonState.outputSignal (b : ButtonState) : Bool :=
  b.pressed || b.keepOn

/-- The transition table of section 4.3 of the specification, row by row;
a pair the table does not list (and `Back`, which only ends the loop) leaves
the state as it is. -/
def table_step (b : ButtonState) (e : InputEvent) : ButtonState :=
  match e.key, e.type with
  | InputKeyOk, InputTypePress => { b with pressed := true }
  | InputKeyOk, InputTypeShort =>
    { pressed := false, keepOn := !b.keepOn, shortPressExpectRelease := true }
  | InputKeyOk, InputTypeRelease =>
    if b.shortPressExpectRelease then { b with shortPressExpectRelease := false }
    else { b with pressed := false }
  | InputKeyOk, InputTypeLong =>
    if b.shortPressExpectRelease then { b with shortPressExpectRelease := false }
    else { b with pressed := true }
  | _, _ => b

/-- The outputs the table prescribes: the `OutputSignal` of the state after
each event of the sequence, in order. -/
def table_outputs : ButtonState → List InputEvent → List Bool
  | _, [] => []
  | b, e :: es => (table_step b e).outputSignal :: table_outputs (table_step b e) es

/-- The state the table reaches after a sequence of events. -/
def table_run (b : ButtonState) (es : List InputEvent) : ButtonState :=
  es.foldl table_step b

/-- The view of the flags of `AppData` as a `ButtonState`. -/
def AppData.toButtonState (d : AppData) : ButtonState :=
  { pressed := d.pressed, keepOn := d.keep_on,
    shortPressExpectRelease := d.short_expect_release }

/-- The application data with its three flags replaced by those of a
`ButtonState`; the text buffer is kept. -/
def AppData.withFlags (d : AppData) (b : ButtonState) : AppData :=
  { buffer := d.buffer, pressed := b.pressed, keep_on := b.keepOn,
    short_expect_release := b.shortPressExpectRelease }

/-- The events that set or clear `short_expect_release`: an Ok-key event of
kind Short, Release or Long. -/
def touches_flag (e : InputEvent) : Bool :=
  e.key == InputKeyOk &&
    (e.type == InputTypeShort || e.type == InputTypeRelease || e.type == InputTypeLong)

/-- A key event as the input callback queues it (line 41). -/
def keyEvent (key : InputKey) (type : InputType) : AppEvent :=
  { type := AppEventTypeKey, input := { key := key, type := type } }

/-! ## `render_callback` (lines 46-68) -/

/-- Modelled from the spec: the fonts of the display surface (section 6,
`drawText(x, y, text, font)`); the names are the ones the source uses. -/
inductive Font where
  | FontPrimary
  | FontSecondary
  deriving DecidableEq, Repr

/-- Modelled from the spec: the text alignments of the display surface; the
names are the ones the source uses. -/
inductive Align where
  | AlignLeft
  | AlignRight
  | AlignTop
  | AlignBottom
  | AlignCenter
  deriving DecidableEq, Repr

open Font Align

/-- One text drawn on the surface: position, alignment, font and text. -/
structure DrawnText where
  x : Nat
  y : Nat
  horizontal : Align
  vertical : Align
  font : Font
  text : String
  deriving DecidableEq, Repr

/-- Modelled from the spec: the display surface (section 6), as the font
currently selected and the texts drawn so far, oldest first. -/
structure Canvas where
  font : Font
  drawn : List DrawnText
  deriving DecidableEq, Repr

/-- Modelled from the spec: selecting the font of the surface. -/
def canvas_set_font (canvas : Canvas) (font : Font) : Canvas :=
  { canvas with font := font }

/-- Modelled from the spec: the primitive `drawText(x, y, text, font)` of the
surface (section 6), drawing in the font currently selected. -/
def canvas_draw_str_aligned (canvas : Canvas) (x y : Nat) (horizontal vertical : Align)
    (str : String) : Canvas :=
  { canvas with drawn := canvas.drawn ++
      [{ x := x, y := y, horizontal := horizontal, vertical := vertical,
         font := canvas.font, text := str }] }

/-- The function `render_callback` (lines 46-68): the surface and the context
after the call. The call `furi_string_printf(data->buffer, "State: %s", state)`
stores the text `State: ` followed by `state` in the buffer. -/
def render_callback (canvas : Canvas) (app_context : AppContext) : Canvas × AppContext :=
  if furi_mutex_acquire app_context.mutex (some 200) != FuriStatusOk then
    (canvas, app_context)
  else
    let data := app_context.data
    let canvas1 := canvas_set_font canvas FontPrimary
    let canvas2 := canvas_draw_str_aligned canvas1 15 25 AlignLeft AlignTop "Laser Pointer"
    let state0 := if data.pressed then "ON" else "OFF"
    let state := if data.keep_on then "ON (Keep ON)" else state0
    let data1 := { data with buffer := "State: " ++ state }
    let canvas3 := canvas_set_font canvas2 FontSecondary
    let canvas4 := canvas_draw_str_aligned canvas3 15 40 AlignLeft AlignTop data1.buffer
    (canvas4, { app_context with data := data1 })

/-- The title text as `render_callback` draws it (line 56). -/
def title_text : DrawnText :=
  { x := 15, y := 25, horizontal := AlignLeft, vertical := AlignTop,
    font := FontPrimary, text := "Laser Pointer" }

/-- The status line as `render_callback` draws it (lines 63-64), for a given
text. -/
def status_text (text : String) : DrawnText :=
  { x := 15, y := 40, horizontal := AlignLeft, vertical := AlignTop,
    font := FontSecondary, text := text }

/-- The complete short click: press, short, release of the Ok key. -/
def short_click : List (Option AppEvent) :=
  [some (keyEvent InputKeyOk InputTypePress), some (keyEvent InputKeyOk InputTypeShort),
   some (keyEvent InputKeyOk InputTypeRelease)]

/-! ## Concrete inputs used in the worked examples -/

/-- A lock that another thread keeps holding for 201 ms. -/
def mutex_busy : FuriMutex := { busy_ms := 201 }

/-- A surface on which nothing has been drawn yet. -/
def canvas_blank : Canvas := { font := FontSecondary, drawn := [] }

/-- Hardware with the output off and no primitive call issued yet. -/
def hw_off : Hw := { otg_enabled := false, enable_calls := 0, disable_calls := 0 }

/-- Hardware with the output on and no primitive call issued yet. -/
def hw_on : Hw := { otg_enabled := true, enable_calls := 0, disable_calls := 0 }

/-- A lock that no other thread holds. -/
def mutex_free : FuriMutex := { busy_ms := 0 }

/-- Freshly allocated application data with all flags false. -/
def mem_zero : AppData :=
  { buffer := "", pressed := false, keep_on := false, short_expect_release := false }

/-- Enable primitive that always succeeds. -/
def always_ok : Nat → Bool := fun _ => true

/-- Enable primitive that never succeeds. -/
def never_ok : Nat → Bool := fun _ => false

/-- Enable primitive whose first call fails and whose later calls succeed. -/
def second_ok : Nat → Bool := fun k => decide (1 ≤ k)

/-! ## Lemmas on the power driver -/

section driver

variable (outcomes : Nat → Bool)

theorem furi_mutex_acquire_forever (m : FuriMutex) :
    furi_mutex_acquire m FuriWaitForever = FuriStatusOk := rfl

/-- The disable branch of the retry loop runs the disable primitive once per
remaining attempt and never touches `success`. -/
theorem loop_disable (n : Nat) (success : Bool) (hw : Hw) :
    attempt_set_5v_state_loop outcomes false n success hw =
      (success, if n = 0 then hw else
        { otg_enabled := false, enable_calls := hw.enable_calls,
          disable_calls := hw.disable_calls + n }) := by
  induction n generalizing hw with
  | zero => simp [attempt_set_5v_state_loop]
  | succ n ih =>
    simp only [attempt_set_5v_state_loop, Bool.false_eq_true, if_false, ih,
      furi_hal_power_disable_otg]
    by_cases hn : n = 0
    · subst hn; simp
    · simp [hn]; omega

/-- The enable branch of the retry loop, started with `success = false`: it
issues `k` enable calls with `k` at most the attempts available, every call
before the last one failed, and either the last call succeeded (result true,
output on) or all the attempts were used up and failed (result false, flag
untouched). -/
theorem loop_enable (n : Nat) (hw : Hw) :
    ∃ k, k ≤ n ∧
      (attempt_set_5v_state_loop outcomes true n false hw).2.enable_calls
        = hw.enable_calls + k ∧
      (attempt_set_5v_state_loop outcomes true n false hw).2.disable_calls
        = hw.disable_calls ∧
      (∀ i, i + 1 < k → outcomes (hw.enable_calls + i) = false) ∧
      (((attempt_set_5v_state_loop outcomes true n false hw).1 = true ∧ 1 ≤ k ∧
          outcomes (hw.enable_calls + (k - 1)) = true ∧
          (attempt_set_5v_state_loop outcomes true n false hw).2.otg_enabled = true) ∨
       ((attempt_set_5v_state_loop outcomes true n false hw).1 = false ∧ k = n ∧
          (∀ i, i < n → outcomes (hw.enable_calls + i) = false) ∧
          (attempt_set_5v_state_loop outcomes true n false hw).2.otg_enabled
            = hw.otg_enabled)) := by
  induction n generalizing hw with
  | zero =>
    refine ⟨0, le_refl _, ?_, ?_, ?_, Or.inr ?_⟩ <;> simp [attempt_set_5v_state_loop]
  | succ n ih =>
    by_cases hok : outcomes hw.enable_calls = true
    · refine ⟨1, by omega, ?_, ?_, ?_, Or.inl ?_⟩ <;>
        simp [attempt_set_5v_state_loop, furi_hal_power_enable_otg, hok]
    · have hno : outcomes hw.enable_calls = false := by simpa using hok
      have hstep : attempt_set_5v_state_loop outcomes true (n + 1) false hw =
          attempt_set_5v_state_loop outcomes true n false
            { otg_enabled := hw.otg_enabled, enable_calls := hw.enable_calls + 1,
              disable_calls := hw.disable_calls } := by
        simp [attempt_set_5v_state_loop, furi_hal_power_enable_otg, hno]
      obtain ⟨k, hk, hen, hdis, hpre, hlast⟩ := ih
        { otg_enabled := hw.otg_enabled, enable_calls := hw.enable_calls + 1,
          disable_calls := hw.disable_calls }
      simp only at hen hdis hpre hlast
      rw [hstep]
      refine ⟨k + 1, by omega, by rw [hen]; omega, hdis, ?_, ?_⟩
      · intro i hi
        cases i with
        | zero => simpa using hno
        | succ j =>
          have := hpre j (by omega)
          rwa [show hw.enable_calls + 1 + j = hw.enable_calls + (j + 1) by omega] at this
      · rcases hlast with ⟨h1, h2, h3, h4⟩ | ⟨h1, h2, h3, h4⟩
        · left
          refine ⟨h1, by omega, ?_, h4⟩
          rwa [show hw.enable_calls + 1 + (k - 1) = hw.enable_calls + (k + 1 - 1) by omega]
            at h3
        · right
          refine ⟨h1, by omega, ?_, h4⟩
          intro i hi
          cases i with
          | zero => simpa using hno
          | succ j =>
            have := h3 j (by omega)
            rwa [show hw.enable_calls + 1 + j = hw.enable_calls + (j + 1) by omega] at this

/-- A call of the driver with the flag already equal to the request is a
no-op that reports success. -/
theorem attempt_noop (enable : Bool) (hw : Hw) (h : hw.otg_enabled = enable) :
    attempt_set_5v_state outcomes enable hw = (true, hw) := by
  simp [attempt_set_5v_state, furi_hal_power_is_otg_enabled, h]

/-- A disable request always leaves the output off. -/
theorem attempt_false_off (hw : Hw) :
    (attempt_set_5v_state outcomes false hw).2.otg_enabled = false := by
  cases h : hw.otg_enabled <;>
    simp [attempt_set_5v_state, furi_hal_power_is_otg_enabled, h, loop_disable]

/-- An enable request never issues the disable primitive. -/
theorem attempt_true_no_disable (hw : Hw) :
    (attempt_set_5v_state outcomes true hw).2.disable_calls = hw.disable_calls := by
  cases h : hw.otg_enabled
  · obtain ⟨k, -, -, hdis, -, -⟩ := loop_enable outcomes 5 hw
    simpa [attempt_set_5v_state, furi_hal_power_is_otg_enabled, h] using hdis
  · simp [attempt_set_5v_state, furi_hal_power_is_otg_enabled, h]

end driver

/-! ## Lemmas on the event loop -/

section loop

variable (outcomes : Nat → Bool)

theorem withFlags_toButtonState (d : AppData) (b : ButtonState) :
    (d.withFlags b).toButtonState = b := rfl

theorem withFlags_self (d : AppData) : d.withFlags d.toButtonState = d := rfl

theorem withFlags_withFlags (d : AppData) (b c : ButtonState) :
    (d.withFlags b).withFlags c = d.withFlags c := rfl

/-- The key handling changes the flags as the table prescribes, clears
`processing` exactly on a Back key, and touches nothing else. -/
theorem handle_key_event_eq (e : AppEvent) (s : LoopState) :
    handle_key_event e s =
      { ctx := { mutex := s.ctx.mutex,
                 data := s.ctx.data.withFlags (table_step s.ctx.data.toButtonState e.input) },
        hw := s.hw,
        processing := s.processing && (e.input.key != InputKeyBack),
        requests := s.requests,
        repaints := s.repaints } := by
  rcases e with ⟨⟨⟩, ⟨k, t⟩⟩
  rcases s with ⟨⟨m, ⟨buf, p, ko, se⟩⟩, hw, pr, rq, rp⟩
  cases k <;> cases t <;> cases se <;>
    simp [handle_key_event, LoopState.setData, furi_mutex_acquire, FuriWaitForever,
      table_step, AppData.toButtonState, AppData.withFlags]

/-- One pass of the loop body on a delivered event. -/
theorem loop_body_some (e : AppEvent) (s : LoopState) :
    loop_body outcomes (some e) s =
      { ctx := { mutex := s.ctx.mutex,
                 data := s.ctx.data.withFlags (table_step s.ctx.data.toButtonState e.input) },
        hw := (attempt_set_5v_state outcomes
                (table_step s.ctx.data.toButtonState e.input).outputSignal s.hw).2,
        processing := s.processing && (e.input.key != InputKeyBack),
        requests := s.requests ++ [(table_step s.ctx.data.toButtonState e.input).outputSignal],
        repaints := s.repaints + 1 } := by
  rcases e with ⟨⟨⟩, i⟩
  simp [loop_body, update_pointer_state, handle_key_event_eq, furi_mutex_acquire,
    FuriWaitForever, ButtonState.outputSignal, AppData.withFlags]

/-- A Back key leaves the flags as they are. -/
theorem table_step_back (b : ButtonState) (i : InputEvent) (h : i.key = InputKeyBack) :
    table_step b i = b := by
  rcases i with ⟨k, t⟩
  simp only at h
  subst h
  cases t <;> rfl

theorem table_run_append (b : ButtonState) (xs ys : List InputEvent) :
    table_run b (xs ++ ys) = table_run (table_run b xs) ys := by
  simp [table_run, List.foldl_append]

theorem table_outputs_append (b : ButtonState) (xs ys : List InputEvent) :
    table_outputs b (xs ++ ys) = table_outputs b xs ++ table_outputs (table_run b xs) ys := by
  induction xs generalizing b with
  | nil => simp [table_outputs, table_run]
  | cons x xs ih => simp [table_outputs, table_run, ih]

theorem table_outputs_length (b : ButtonState) (xs : List InputEvent) :
    (table_outputs b xs).length = xs.length := by
  induction xs generalizing b with
  | nil => rfl
  | cons x xs ih => simp [table_outputs, ih]

/-- Running the loop over two batches of queue results. -/
theorem main_loop_append (xs ys : List (Option AppEvent)) (s : LoopState)
    (hs : s.processing = true) :
    main_loop outcomes (xs ++ ys) s =
      if (main_loop outcomes xs s).processing then
        main_loop outcomes ys (main_loop outcomes xs s)
      else main_loop outcomes xs s := by
  induction xs generalizing s with
  | nil => simp [main_loop, hs]
  | cons x xs ih =>
    simp only [List.cons_append, main_loop]
    by_cases hp : (loop_body outcomes x s).processing = true
    · simp only [hp, if_true]
      exact ih _ hp
    · simp [hp]

/-- The loop over delivered events none of which is a Back key: every event
is handled, the flags follow the table and each event adds one request. -/
theorem main_loop_noBack (es : List AppEvent) (s : LoopState) (hs : s.processing = true)
    (h : ∀ e ∈ es, e.input.key ≠ InputKeyBack) :
    main_loop outcomes (es.map some) s =
      { ctx := { mutex := s.ctx.mutex,
                 data := s.ctx.data.withFlags
                   (table_run s.ctx.data.toButtonState (es.map AppEvent.input)) },
        hw := (main_loop outcomes (es.map some) s).hw,
        processing := true,
        requests := s.requests ++
          table_outputs s.ctx.data.toButtonState (es.map AppEvent.input),
        repaints := s.repaints + es.length } := by
  induction es generalizing s with
  | nil =>
    rcases s with ⟨⟨m, d⟩, hw, pr, rq, rp⟩
    simp only at hs
    subst hs
    simp [main_loop, table_run, table_outputs, withFlags_self]
  | cons e es ih =>
    have he : e.input.key ≠ InputKeyBack := h e (List.mem_cons_self _ _)
    have hes : ∀ x ∈ es, x.input.key ≠ InputKeyBack :=
      fun x hx => h x (List.mem_cons_of_mem _ hx)
    have hp : (loop_body outcomes (some e) s).processing = true := by
      rw [loop_body_some]; simp [hs, he]
    simp only [List.map_cons, main_loop, hp, if_true]
    rw [ih (loop_body outcomes (some e) s) hp hes]
    simp only [loop_body_some, withFlags_toButtonState, withFlags_withFlags, table_run,
      List.foldl_cons, table_outputs, List.append_assoc, List.singleton_append,
      List.length_cons]
    congr 1
    omega

/-- The loop over a batch without Back followed by one more delivered event:
that event is handled by one pass of the body and, when it is a Back key,
nothing after it is read. -/
theorem main_loop_then (es : List AppEvent) (e : AppEvent) (rest : List (Option AppEvent))
    (s : LoopState) (hs : s.processing = true)
    (h : ∀ x ∈ es, x.input.key ≠ InputKeyBack)
    (hrest : rest = [] ∨ e.input.key = InputKeyBack) :
    main_loop outcomes (es.map some ++ some e :: rest) s =
      loop_body outcomes (some e) (main_loop outcomes (es.map some) s) := by
  have hp : (main_loop outcomes (es.map some) s).processing = true := by
    rw [main_loop_noBack outcomes es s hs h]
  rw [main_loop_append outcomes _ _ s hs, hp]
  simp only [if_true, main_loop]
  rcases hrest with hr | hb
  · subst hr
    simp [main_loop]
  · have : (loop_body outcomes (some e)
        (main_loop outcomes (es.map some) s)).processing = false := by
      rw [loop_body_some]; simp [hb]
    simp [this]

/-- The flag `shortPressExpectRelease` after a run of the table: it is set
exactly when the most recent event that touches it is Ok+Short. -/
theorem table_run_flag (b : ButtonState) (es : List InputEvent)
    (hb : b.shortPressExpectRelease = false) :
    (table_run b es).shortPressExpectRelease = true ↔
      (es.filter touches_flag).getLast? = some ⟨InputKeyOk, InputTypeShort⟩ := by
  induction es using List.reverseRecOn with
  | nil => simp [table_run, hb]
  | append_singleton es e ih =>
    rw [table_run_append]
    rcases e with ⟨k, t⟩
    cases hse : (table_run b es).shortPressExpectRelease <;>
      cases k <;> cases t <;>
      simp_all [table_run, table_step, touches_flag, List.filter_append,
        List.getLast?_append]

end loop

/-! ## Properties of `attempt_set_5v_state` -/

/-- Result of a disable request: true only when the output was already off. -/
theorem attempt_disable_result (outcomes : Nat → Bool) (hw : Hw) :
    (attempt_set_5v_state outcomes false hw).1 = !hw.otg_enabled := by
  cases h : hw.otg_enabled <;>
    simp [attempt_set_5v_state, furi_hal_power_is_otg_enabled, h, loop_disable]

/-- Behaviour of an enable request issued while the output is off. -/
theorem attempt_enable_spec (outcomes : Nat → Bool) (hw : Hw) (h : hw.otg_enabled = false) :
    1 ≤ (attempt_set_5v_state outcomes true hw).2.enable_calls - hw.enable_calls ∧
    (attempt_set_5v_state outcomes true hw).2.enable_calls - hw.enable_calls ≤ 5 ∧
    hw.enable_calls ≤ (attempt_set_5v_state outcomes true hw).2.enable_calls ∧
    (attempt_set_5v_state outcomes true hw).2.disable_calls = hw.disable_calls ∧
    (∀ i, i + 1 < (attempt_set_5v_state outcomes true hw).2.enable_calls - hw.enable_calls →
      outcomes (hw.enable_calls + i) = false) ∧
    ((attempt_set_5v_state outcomes true hw).1 = true ↔
      ∃ i, i < (attempt_set_5v_state outcomes true hw).2.enable_calls - hw.enable_calls ∧
        outcomes (hw.enable_calls + i) = true) ∧
    ((attempt_set_5v_state outcomes true hw).1 = false ↔
      ∀ i, i < 5 → outcomes (hw.enable_calls + i) = false) ∧
    ((attempt_set_5v_state outcomes true hw).1 = false →
      (attempt_set_5v_state outcomes true hw).2.enable_calls = hw.enable_calls + 5) ∧
    (attempt_set_5v_state outcomes true hw).2.otg_enabled
      = (attempt_set_5v_state outcomes true hw).1 := by
  have hdef : attempt_set_5v_state outcomes true hw =
      attempt_set_5v_state_loop outcomes true 5 false hw := by
    simp [attempt_set_5v_state, furi_hal_power_is_otg_enabled, h]
  obtain ⟨k, hk, hen, hdis, hpre, hlast⟩ := loop_enable outcomes 5 hw
  rw [hdef, hen]
  have hsub : hw.enable_calls + k - hw.enable_calls = k := by omega
  rw [hsub]
  rcases hlast with ⟨h1, h2, h3, h4⟩ | ⟨h1, h2, h3, h4⟩
  · refine ⟨h2, hk, by omega, hdis, hpre, ?_, ?_, ?_, ?_⟩
    · exact ⟨fun _ => ⟨k - 1, by omega, h3⟩, fun _ => h1⟩
    · constructor
      · intro hf; rw [h1] at hf; exact absurd hf (by decide)
      · intro hall
        have := hall (k - 1) (by omega)
        rw [h3] at this; exact absurd this (by decide)
    · intro hf; rw [h1] at hf; exact absurd hf (by decide)
    · rw [h1, h4]
  · subst h2
    refine ⟨by omega, le_refl _, by omega, hdis, hpre, ?_, ?_, ?_, ?_⟩
    · constructor
      · intro ht; rw [h1] at ht; exact absurd ht (by decide)
      · rintro ⟨i, hi, hit⟩
        rw [h3 i hi] at hit; exact absurd hit (by decide)
    · exact ⟨fun _ => h3, fun _ => h1⟩
    · intro _; rfl
    · rw [h1, h4, h]

/-- C3 (code evaluated at the failing input): `attempt_set_5v_state(false)`
returns true only when the output was already off; whenever the output is
enabled at the time of the call, the disable path is taken and the function
returns false, for every hardware behaviour. -/
theorem C3_disable_result (outcomes : Nat → Bool) (hw : Hw) :
    (attempt_set_5v_state outcomes false hw).1 = !hw.otg_enabled :=
  attempt_disable_result outcomes hw

/-- C4: with the output disabled, `attempt_set_5v_state(true)` issues between
one and five calls of the enable primitive and no disable call; every call
before the last one failed (it stops at the first success); it returns true
if and only if one of its calls succeeded, and returns false exactly when
five consecutive enable calls all failed, in which case all five were made.
The output flag afterwards equals the result. -/
theorem C4_enable_retry (outcomes : Nat → Bool) (hw : Hw) (h : hw.otg_enabled = false) :
    1 ≤ (attempt_set_5v_state outcomes true hw).2.enable_calls - hw.enable_calls ∧
    (attempt_set_5v_state outcomes true hw).2.enable_calls - hw.enable_calls ≤ 5 ∧
    hw.enable_calls ≤ (attempt_set_5v_state outcomes true hw).2.enable_calls ∧
    (attempt_set_5v_state outcomes true hw).2.disable_calls = hw.disable_calls ∧
    (∀ i, i + 1 < (attempt_set_5v_state outcomes true hw).2.enable_calls - hw.enable_calls →
      outcomes (hw.enable_calls + i) = false) ∧
    ((attempt_set_5v_state outcomes true hw).1 = true ↔
      ∃ i, i < (attempt_set_5v_state outcomes true hw).2.enable_calls - hw.enable_calls ∧
        outcomes (hw.enable_calls + i) = true) ∧
    ((attempt_set_5v_state outcomes true hw).1 = false ↔
      ∀ i, i < 5 → outcomes (hw.enable_calls + i) = false) ∧
    ((attempt_set_5v_state outcomes true hw).1 = false →
      (attempt_set_5v_state outcomes true hw).2.enable_calls = hw.enable_calls + 5) ∧
    (attempt_set_5v_state outcomes true hw).2.otg_enabled
      = (attempt_set_5v_state outcomes true hw).1 :=
  attempt_enable_spec outcomes hw h

/-- Worked example of C4: the output is off, the first two enable calls fail
and the third succeeds. -/
theorem C4_enable_retry_witness :
    hw_off.otg_enabled = false ∧
    attempt_set_5v_state (fun k => decide (2 ≤ k)) true hw_off
      = (true, { otg_enabled := true, enable_calls := 3, disable_calls := 0 }) ∧
    ((attempt_set_5v_state (fun k => decide (2 ≤ k)) true hw_off).1 = true ↔
      ∃ i, i < (attempt_set_5v_state (fun k => decide (2 ≤ k)) true hw_off).2.enable_calls
            - hw_off.enable_calls ∧
        (fun k => decide (2 ≤ k)) (hw_off.enable_calls + i) = true) :=
  ⟨rfl, by decide, (C4_enable_retry (fun k => decide (2 ≤ k)) hw_off rfl).2.2.2.2.2.1⟩

/-- C5 (code evaluated at the failing input): `attempt_set_5v_state(false)`
issues no enable call, and issues the disable primitive five times when the
output is enabled at the time of the call (none when it is already off). -/
theorem C5_disable_call_count (outcomes : Nat → Bool) (hw : Hw) :
    (attempt_set_5v_state outcomes false hw).2.disable_calls
      = hw.disable_calls + (if hw.otg_enabled then 5 else 0) ∧
    (attempt_set_5v_state outcomes false hw).2.enable_calls = hw.enable_calls := by
  cases h : hw.otg_enabled <;>
    simp [attempt_set_5v_state, furi_hal_power_is_otg_enabled, h, loop_disable]

/-- C6 (counterexample): the output is off, the first enable attempt fails and
the second succeeds; two consecutive calls `attempt_set_5v_state(true)` then
issue two hardware calls, although the first call reports success. -/
theorem C6_two_calls_counterexample :
    (attempt_set_5v_state second_ok true hw_off).1 = true ∧
    (attempt_set_5v_state second_ok true
        (attempt_set_5v_state second_ok true hw_off).2).2.calls = hw_off.calls + 2 ∧
    ¬ ((attempt_set_5v_state second_ok true
        (attempt_set_5v_state second_ok true hw_off).2).2.calls ≤ hw_off.calls + 1) := by
  decide

/-- C6 (amended): of two consecutive calls `attempt_set_5v_state(enable)` the
second is a no-op (it returns true and issues no hardware call) whenever the
first call left the output equal to `enable`; that is always so for
`enable = false`, and for `enable = true` whenever the first call returned
true. When the output already equals `enable` the two calls issue no
hardware call at all. For `enable = true` the two calls together issue at
most one hardware call exactly when the output was already enabled or the
first enable attempt succeeded: a failed enable attempt is retried. -/
theorem C6_second_call_noop (outcomes : Nat → Bool) (enable : Bool) (hw : Hw) :
    ((attempt_set_5v_state outcomes enable hw).2.otg_enabled = enable →
      attempt_set_5v_state outcomes enable (attempt_set_5v_state outcomes enable hw).2
        = (true, (attempt_set_5v_state outcomes enable hw).2)) ∧
    attempt_set_5v_state outcomes false (attempt_set_5v_state outcomes false hw).2
      = (true, (attempt_set_5v_state outcomes false hw).2) ∧
    ((attempt_set_5v_state outcomes true hw).1 = true →
      attempt_set_5v_state outcomes true (attempt_set_5v_state outcomes true hw).2
        = (true, (attempt_set_5v_state outcomes true hw).2)) ∧
    (hw.otg_enabled = enable →
      (attempt_set_5v_state outcomes enable
        (attempt_set_5v_state outcomes enable hw).2).2.calls = hw.calls) ∧
    ((attempt_set_5v_state outcomes true
        (attempt_set_5v_state outcomes true hw).2).2.calls ≤ hw.calls + 1 ↔
      (hw.otg_enabled = true ∨ outcomes hw.enable_calls = true)) := by
  have hsucc : (attempt_set_5v_state outcomes true hw).1 = true →
      (attempt_set_5v_state outcomes true hw).2.otg_enabled = true := by
    intro h
    cases hon : hw.otg_enabled with
    | true => rw [attempt_noop outcomes true hw hon]; exact hon
    | false => rw [(attempt_enable_spec outcomes hw hon).2.2.2.2.2.2.2.2, h]
  refine ⟨fun h => attempt_noop outcomes enable _ h,
    attempt_noop outcomes false _ (attempt_false_off outcomes hw),
    fun h => attempt_noop outcomes true _ (hsucc h), ?_, ?_⟩
  · intro heq
    rw [attempt_noop outcomes enable hw heq]
    simp only
    rw [attempt_noop outcomes enable hw heq]
  · cases hon : hw.otg_enabled with
    | true =>
      rw [attempt_noop outcomes true hw hon]
      simp only
      rw [attempt_noop outcomes true hw hon]
      simp
    | false =>
      obtain ⟨h1, h2, h3, h4, h5, h6, h7, h8, h9⟩ := attempt_enable_spec outcomes hw hon
      simp only [Bool.false_eq_true, false_or]
      cases hres : (attempt_set_5v_state outcomes true hw).1 with
      | true =>
        rw [attempt_noop outcomes true _ (hsucc hres)]
        simp only [Hw.calls, h4]
        constructor
        · intro hle
          by_contra hne
          have hno : outcomes hw.enable_calls = false := by simpa using hne
          obtain ⟨i, hi, hit⟩ := h6.mp hres
          have hi0 : i = 0 := by omega
          subst hi0
          rw [Nat.add_zero, hno] at hit
          exact absurd hit (by decide)
        · intro hok
          by_contra hgt
          have := h5 0 (by omega)
          rw [Nat.add_zero, hok] at this
          exact absurd this (by decide)
      | false =>
        have hoff2 : (attempt_set_5v_state outcomes true hw).2.otg_enabled = false := by
          rw [h9, hres]
        obtain ⟨-, -, g3, g4, -⟩ :=
          attempt_enable_spec outcomes (attempt_set_5v_state outcomes true hw).2 hoff2
        have hk := h8 hres
        have hfirst := h7.mp hres 0 (by omega)
        rw [Nat.add_zero] at hfirst
        simp only [Hw.calls, g4, h4, hfirst, Bool.false_eq_true, iff_false, not_le]
        omega

/-- Worked example of C6 (amended): with the output on, a disable request
followed by a second one (the second is a no-op); with the output off and a
first enable attempt that succeeds, two enable requests issue one hardware
call. -/
theorem C6_second_call_noop_witness :
    attempt_set_5v_state never_ok false (attempt_set_5v_state never_ok false hw_on).2
      = (true, (attempt_set_5v_state never_ok false hw_on).2) ∧
    (attempt_set_5v_state always_ok true hw_off).1 = true ∧
    attempt_set_5v_state always_ok true (attempt_set_5v_state always_ok true hw_off).2
      = (true, (attempt_set_5v_state always_ok true hw_off).2) ∧
    (attempt_set_5v_state always_ok true
        (attempt_set_5v_state always_ok true hw_off).2).2.calls ≤ hw_off.calls + 1 :=
  ⟨(C6_second_call_noop never_ok false hw_on).2.1,
   by decide,
   (C6_second_call_noop always_ok true hw_off).2.2.1 (by decide),
   (C6_second_call_noop always_ok true hw_off).2.2.2.2.mpr (Or.inr rfl)⟩

/-- C7: when the hardware state already equals `enable`, the call
`attempt_set_5v_state(enable)` returns true, issues no enable or disable
call and leaves the hardware state unchanged, for both values of `enable`. -/
theorem C7_noop_when_equal (outcomes : Nat → Bool) (enable : Bool) (hw : Hw)
    (h : furi_hal_power_is_otg_enabled hw = enable) :
    (attempt_set_5v_state outcomes enable hw).1 = true ∧
    (attempt_set_5v_state outcomes enable hw).2 = hw ∧
    (attempt_set_5v_state outcomes enable hw).2.enable_calls = hw.enable_calls ∧
    (attempt_set_5v_state outcomes enable hw).2.disable_calls = hw.disable_calls := by
  have hh : hw.otg_enabled = enable := h
  rw [attempt_noop outcomes enable hw hh]
  exact ⟨rfl, rfl, rfl, rfl⟩

/-- Worked example of C7 for both values of `enable`, with an enable primitive
that would fail if it were called. -/
theorem C7_noop_when_equal_witness :
    (furi_hal_power_is_otg_enabled hw_on = true ∧
      (attempt_set_5v_state never_ok true hw_on).1 = true ∧
      (attempt_set_5v_state never_ok true hw_on).2 = hw_on) ∧
    (furi_hal_power_is_otg_enabled hw_off = false ∧
      (attempt_set_5v_state never_ok false hw_off).1 = true ∧
      (attempt_set_5v_state never_ok false hw_off).2 = hw_off) :=
  ⟨⟨rfl, (C7_noop_when_equal never_ok true hw_on rfl).1,
      (C7_noop_when_equal never_ok true hw_on rfl).2.1⟩,
   ⟨rfl, (C7_noop_when_equal never_ok false hw_off rfl).1,
      (C7_noop_when_equal never_ok false hw_off rfl).2.1⟩⟩

/-! ## Properties of the event loop -/

/-- The application started on a batch of delivered events without Back: the
loop state after the batch. -/
theorem app_noBack (outcomes : Nat → Bool) (hw : Hw) (mutex : FuriMutex) (mem : AppData)
    (es : List AppEvent) (h : ∀ e ∈ es, e.input.key ≠ InputKeyBack) :
    (laser_pointer_app outcomes hw mutex mem (es.map some)).final.processing = true ∧
    (laser_pointer_app outcomes hw mutex mem (es.map some)).final.requests
      = false :: table_outputs mem.toButtonState (es.map AppEvent.input) ∧
    (laser_pointer_app outcomes hw mutex mem (es.map some)).final.ctx.data.toButtonState
      = table_run mem.toButtonState (es.map AppEvent.input) ∧
    (laser_pointer_app outcomes hw mutex mem (es.map some)).final.repaints = es.length := by
  simp only [laser_pointer_app]
  rw [main_loop_noBack outcomes es _ rfl h]
  simp [AppData.toButtonState, AppData.withFlags]

/-- The application started on a batch without Back followed by one more
delivered event (and, after a Back key, by anything): the final loop state is
one pass of the loop body after the batch. -/
theorem app_then (outcomes : Nat → Bool) (hw : Hw) (mutex : FuriMutex) (mem : AppData)
    (es : List AppEvent) (e : AppEvent) (rest : List (Option AppEvent))
    (h : ∀ x ∈ es, x.input.key ≠ InputKeyBack)
    (hrest : rest = [] ∨ e.input.key = InputKeyBack) :
    (laser_pointer_app outcomes hw mutex mem (es.map some ++ some e :: rest)).final
      = loop_body outcomes (some e)
          (laser_pointer_app outcomes hw mutex mem (es.map some)).final := by
  simp only [laser_pointer_app]
  exact main_loop_then outcomes es e rest _ rfl h hrest

/-- C1: for every initial flag values, hardware and lock, and every sequence
of delivered key events without a Back key, the requests made to
`attempt_set_5v_state` are the startup request `false` followed by exactly
one request per handled event, whose argument is `pressed OR keepOn` of the
state the transition table of section 4.3 reaches on the events handled so
far; the flags at the end are those the table reaches. The last conjunct says
the same event by event: handling one more event adds exactly one request. -/
theorem C1_requests_follow_table (outcomes : Nat → Bool) (hw : Hw) (mutex : FuriMutex)
    (mem : AppData) (es : List AppEvent) (h : ∀ e ∈ es, e.input.key ≠ InputKeyBack) :
    (laser_pointer_app outcomes hw mutex mem (es.map some)).final.requests
      = false :: table_outputs mem.toButtonState (es.map AppEvent.input) ∧
    (laser_pointer_app outcomes hw mutex mem (es.map some)).final.requests.length
      = es.length + 1 ∧
    (laser_pointer_app outcomes hw mutex mem (es.map some)).final.ctx.data.toButtonState
      = table_run mem.toButtonState (es.map AppEvent.input) ∧
    (∀ pre e post, es = pre ++ e :: post →
      (laser_pointer_app outcomes hw mutex mem ((pre ++ [e]).map some)).final.requests
        = (laser_pointer_app outcomes hw mutex mem (pre.map some)).final.requests ++
          [(table_run mem.toButtonState
              ((pre ++ [e]).map AppEvent.input)).outputSignal]) := by
  obtain ⟨-, hreq, hdata, -⟩ := app_noBack outcomes hw mutex mem es h
  refine ⟨hreq, ?_, hdata, ?_⟩
  · rw [hreq]; simp [table_outputs_length]
  · intro pre e post hsplit
    have hpre : ∀ x ∈ pre, x.input.key ≠ InputKeyBack := by
      intro x hx; exact h x (by rw [hsplit]; simp [hx])
    have hpree : ∀ x ∈ pre ++ [e], x.input.key ≠ InputKeyBack := by
      intro x hx; exact h x (by
        rw [hsplit]
        rcases List.mem_append.mp hx with hx | hx
        · simp [hx]
        · simp [List.mem_singleton.mp hx])
    rw [(app_noBack outcomes hw mutex mem _ hpree).2.1,
      (app_noBack outcomes hw mutex mem _ hpre).2.1]
    simp [table_outputs_append, table_outputs, table_run_append, table_run]

/-- Worked example of C1: press, an arrow key, short click, release. -/
theorem C1_requests_follow_table_witness :
    (∀ e ∈ [keyEvent InputKeyOk InputTypePress, keyEvent InputKeyUp InputTypeShort,
        keyEvent InputKeyOk InputTypeShort, keyEvent InputKeyOk InputTypeRelease],
      e.input.key ≠ InputKeyBack) ∧
    (laser_pointer_app never_ok hw_off mutex_free mem_zero
      ([keyEvent InputKeyOk InputTypePress, keyEvent InputKeyUp InputTypeShort,
        keyEvent InputKeyOk InputTypeShort,
        keyEvent InputKeyOk InputTypeRelease].map some)).final.requests
      = false :: table_outputs mem_zero.toButtonState
          ([keyEvent InputKeyOk InputTypePress, keyEvent InputKeyUp InputTypeShort,
            keyEvent InputKeyOk InputTypeShort,
            keyEvent InputKeyOk InputTypeRelease].map AppEvent.input) ∧
    table_outputs mem_zero.toButtonState
      ([keyEvent InputKeyOk InputTypePress, keyEvent InputKeyUp InputTypeShort,
        keyEvent InputKeyOk InputTypeShort,
        keyEvent InputKeyOk InputTypeRelease].map AppEvent.input)
      = [true, true, true, true] :=
  ⟨by decide,
   (C1_requests_follow_table never_ok hw_off mutex_free mem_zero _ (by decide)).1,
   by decide⟩

/-- C2 (counterexample): reliable hardware, all flags false at startup, the
queue delivers Ok+Short and then a Back key. The loop ends on Back and the
application returns 0, but the last request to the driver is an enable, no
disable primitive was ever issued and the output is on at return. -/
theorem C2_back_counterexample :
    (laser_pointer_app always_ok hw_off mutex_free mem_zero
      [some (keyEvent InputKeyOk InputTypeShort),
       some (keyEvent InputKeyBack InputTypeShort)]).returned = some 0 ∧
    (laser_pointer_app always_ok hw_off mutex_free mem_zero
      [some (keyEvent InputKeyOk InputTypeShort),
       some (keyEvent InputKeyBack InputTypeShort)]).final.requests = [false, true, true] ∧
    (laser_pointer_app always_ok hw_off mutex_free mem_zero
      [some (keyEvent InputKeyOk InputTypeShort),
       some (keyEvent InputKeyBack InputTypeShort)]).final.hw.disable_calls = 0 ∧
    (laser_pointer_app always_ok hw_off mutex_free mem_zero
      [some (keyEvent InputKeyOk InputTypeShort),
       some (keyEvent InputKeyBack InputTypeShort)]).final.hw.otg_enabled = true := by
  decide

/-- C2 (amended): when the loop ends because a Back key was handled (after a
batch `pre` of events without Back, whatever is queued behind it), the
application returns 0, the Back event leaves the context unchanged, and the
only driver request of the shutdown is the one the loop body makes for the
unchanged flags, `attempt_set_5v_state(pressed || keep_on)`; the teardown
issues none. Hence the output is off at return when both flags were false,
while with a flag set no disable primitive is issued and an output that was
on stays on. -/
theorem C2_back_requests_current_output (outcomes : Nat → Bool) (hw : Hw) (mutex : FuriMutex)
    (mem : AppData) (pre : List AppEvent) (back : AppEvent) (rest : List (Option AppEvent))
    (hpre : ∀ e ∈ pre, e.input.key ≠ InputKeyBack)
    (hback : back.input.key = InputKeyBack) :
    (laser_pointer_app outcomes hw mutex mem (pre.map some ++ some back :: rest)).returned
      = some 0 ∧
    (laser_pointer_app outcomes hw mutex mem (pre.map some ++ some back :: rest)).final.ctx
      = (laser_pointer_app outcomes hw mutex mem (pre.map some)).final.ctx ∧
    (laser_pointer_app outcomes hw mutex mem (pre.map some ++ some back :: rest)).final.requests
      = (laser_pointer_app outcomes hw mutex mem (pre.map some)).final.requests ++
        [(laser_pointer_app outcomes hw mutex mem (pre.map some)).final.ctx.data.pressed ||
         (laser_pointer_app outcomes hw mutex mem (pre.map some)).final.ctx.data.keep_on] ∧
    (laser_pointer_app outcomes hw mutex mem (pre.map some ++ some back :: rest)).final.hw
      = (attempt_set_5v_state outcomes
          ((laser_pointer_app outcomes hw mutex mem (pre.map some)).final.ctx.data.pressed ||
           (laser_pointer_app outcomes hw mutex mem (pre.map some)).final.ctx.data.keep_on)
          (laser_pointer_app outcomes hw mutex mem (pre.map some)).final.hw).2 ∧
    (((laser_pointer_app outcomes hw mutex mem (pre.map some)).final.ctx.data.pressed ||
      (laser_pointer_app outcomes hw mutex mem (pre.map some)).final.ctx.data.keep_on) = false →
      (laser_pointer_app outcomes hw mutex mem
        (pre.map some ++ some back :: rest)).final.hw.otg_enabled = false) ∧
    (((laser_pointer_app outcomes hw mutex mem (pre.map some)).final.ctx.data.pressed ||
      (laser_pointer_app outcomes hw mutex mem (pre.map some)).final.ctx.data.keep_on) = true →
      (laser_pointer_app outcomes hw mutex mem
          (pre.map some ++ some back :: rest)).final.hw.disable_calls
        = (laser_pointer_app outcomes hw mutex mem (pre.map some)).final.hw.disable_calls ∧
      ((laser_pointer_app outcomes hw mutex mem (pre.map some)).final.hw.otg_enabled = true →
        (laser_pointer_app outcomes hw mutex mem
          (pre.map some ++ some back :: rest)).final.hw.otg_enabled = true)) := by
  have hfin := app_then outcomes hw mutex mem pre back rest hpre (Or.inr hback)
  have hstep := table_step_back
    (laser_pointer_app outcomes hw mutex mem (pre.map some)).final.ctx.data.toButtonState
    back.input hback
  have hret : (laser_pointer_app outcomes hw mutex mem
      (pre.map some ++ some back :: rest)).returned
      = if (laser_pointer_app outcomes hw mutex mem
          (pre.map some ++ some back :: rest)).final.processing then none else some 0 := rfl
  rw [hret, hfin, loop_body_some, hstep]
  simp only [withFlags_self, ButtonState.outputSignal, AppData.toButtonState]
  refine ⟨by simp [hback], rfl, trivial, trivial, ?_, ?_⟩
  · intro hout
    rw [hout]
    exact attempt_false_off outcomes _
  · intro hout
    rw [hout]
    refine ⟨attempt_true_no_disable outcomes _, fun hon => ?_⟩
    rw [attempt_noop outcomes true _ hon]
    exact hon

/-- Worked example of C2 (amended): a press and its release, then Back with
one more event queued behind it; both flags are false at Back and the output
is off at return. -/
theorem C2_back_requests_current_output_witness :
    (∀ e ∈ [keyEvent InputKeyOk InputTypePress, keyEvent InputKeyOk InputTypeRelease],
      e.input.key ≠ InputKeyBack) ∧
    (keyEvent InputKeyBack InputTypePress).input.key = InputKeyBack ∧
    (laser_pointer_app always_ok hw_on mutex_free mem_zero
      ([keyEvent InputKeyOk InputTypePress, keyEvent InputKeyOk InputTypeRelease].map some ++
        some (keyEvent InputKeyBack InputTypePress) ::
          [some (keyEvent InputKeyOk InputTypePress)])).returned = some 0 ∧
    (laser_pointer_app always_ok hw_on mutex_free mem_zero
      ([keyEvent InputKeyOk InputTypePress, keyEvent InputKeyOk InputTypeRelease].map some ++
        some (keyEvent InputKeyBack InputTypePress) ::
          [some (keyEvent InputKeyOk InputTypePress)])).final.requests
      = [false, true, false, false] :=
  ⟨by decide, rfl,
   (C2_back_requests_current_output always_ok hw_on mutex_free mem_zero
      [keyEvent InputKeyOk InputTypePress, keyEvent InputKeyOk InputTypeRelease]
      (keyEvent InputKeyBack InputTypePress) [some (keyEvent InputKeyOk InputTypePress)]
      (by decide) rfl).1,
   by decide⟩

/-- C8 (counterexample): from the all-false flags the queue delivers Ok+Short,
Ok+Press and Up+Release. All three events are handled, the last handled
event is not Ok+Short, and `short_expect_release` is still set. -/
theorem C8_stale_flag_counterexample :
    (laser_pointer_app always_ok hw_off mutex_free mem_zero
      [some (keyEvent InputKeyOk InputTypeShort), some (keyEvent InputKeyOk InputTypePress),
       some (keyEvent InputKeyUp InputTypeRelease)]).final.ctx.data.short_expect_release
      = true ∧
    (laser_pointer_app always_ok hw_off mutex_free mem_zero
      [some (keyEvent InputKeyOk InputTypeShort), some (keyEvent InputKeyOk InputTypePress),
       some (keyEvent InputKeyUp InputTypeRelease)]).final.repaints = 3 ∧
    keyEvent InputKeyUp InputTypeRelease ≠ keyEvent InputKeyOk InputTypeShort := by
  decide

/-- C8 (amended): in every state reached from flags with `short_expect_release`
false by handling a sequence of events (a Back key can only be the last
handled event), `short_expect_release` is true exactly when the most recent
handled Ok-key event of kind Short, Release or Long is Ok+Short. So the flag
is set only by Ok+Short, survives Ok+Press and the events of other keys, and
is cleared by the next Ok+Release or Ok+Long. -/
theorem C8_flag_iff_last_touch_short (outcomes : Nat → Bool) (hw : Hw) (mutex : FuriMutex)
    (mem : AppData) (es : List AppEvent) (hmem : mem.short_expect_release = false)
    (h : ∀ e ∈ es.dropLast, e.input.key ≠ InputKeyBack) :
    (laser_pointer_app outcomes hw mutex mem (es.map some)).final.ctx.data.short_expect_release
        = true ↔
      ((es.map AppEvent.input).filter touches_flag).getLast?
        = some { key := InputKeyOk, type := InputTypeShort } := by
  have hflag : ∀ d : AppData,
      d.short_expect_release = d.toButtonState.shortPressExpectRelease := fun _ => rfl
  rcases List.eq_nil_or_concat es with hnil | ⟨pre, e, hes⟩
  · subst hnil
    have hb : mem.toButtonState.shortPressExpectRelease = false := hmem
    rw [hflag, (app_noBack outcomes hw mutex mem [] (by simp)).2.2.1]
    exact table_run_flag mem.toButtonState _ hb
  · rw [List.concat_eq_append] at hes
    subst hes
    have hpre : ∀ x ∈ pre, x.input.key ≠ InputKeyBack := by
      simpa using h
    have hfin := app_then outcomes hw mutex mem pre e [] hpre (Or.inl rfl)
    have hq : (pre ++ [e]).map some = pre.map some ++ [some e] := by simp
    rw [hq, hfin, loop_body_some, hflag]
    simp only [withFlags_toButtonState]
    rw [(app_noBack outcomes hw mutex mem pre hpre).2.2.1]
    have hb : mem.toButtonState.shortPressExpectRelease = false := hmem
    have := table_run_flag mem.toButtonState ((pre ++ [e]).map AppEvent.input) hb
    rw [List.map_append, table_run_append] at this
    simpa [table_run] using this

/-- Worked example of C8 (amended): after Ok+Short, Ok+Press, Up+Release and a
final Back key the flag is set, the most recent Short, Release or Long event
of the Ok key being the Ok+Short. -/
theorem C8_flag_iff_last_touch_short_witness :
    mem_zero.short_expect_release = false ∧
    (∀ e ∈ [keyEvent InputKeyOk InputTypeShort, keyEvent InputKeyOk InputTypePress,
        keyEvent InputKeyUp InputTypeRelease,
        keyEvent InputKeyBack InputTypeShort].dropLast,
      e.input.key ≠ InputKeyBack) ∧
    (laser_pointer_app always_ok hw_off mutex_free mem_zero
      ([keyEvent InputKeyOk InputTypeShort, keyEvent InputKeyOk InputTypePress,
        keyEvent InputKeyUp InputTypeRelease,
        keyEvent InputKeyBack InputTypeShort].map some)).final.ctx.data.short_expect_release
      = true :=
  ⟨rfl, by decide,
   (C8_flag_iff_last_touch_short always_ok hw_off mutex_free mem_zero
      [keyEvent InputKeyOk InputTypeShort, keyEvent InputKeyOk InputTypePress,
        keyEvent InputKeyUp InputTypeRelease, keyEvent InputKeyBack InputTypeShort]
      rfl (by decide)).mpr (by decide)⟩

/-- C9: in a state with `short_expect_release` set, one pass of the loop body on
Ok+Release or Ok+Long clears the flag and leaves `pressed`, `keep_on` and the
text buffer unchanged, so the request it makes is `pressed || keep_on` of the
unchanged flags. In particular, from any running loop state with `keep_on`
false, handling Ok+Short and then Ok+Release leaves `keep_on` true and both
requests are `true`. -/
theorem C9_absorbed_release (outcomes : Nat → Bool) (s : LoopState) (event : AppEvent)
    (hflag : s.ctx.data.short_expect_release = true)
    (hkey : event.input.key = InputKeyOk)
    (htype : event.input.type = InputTypeRelease ∨ event.input.type = InputTypeLong) :
    (loop_body outcomes (some event) s).ctx.data.short_expect_release = false ∧
    (loop_body outcomes (some event) s).ctx.data.pressed = s.ctx.data.pressed ∧
    (loop_body outcomes (some event) s).ctx.data.keep_on = s.ctx.data.keep_on ∧
    (loop_body outcomes (some event) s).ctx.data.buffer = s.ctx.data.buffer ∧
    (loop_body outcomes (some event) s).requests
      = s.requests ++ [s.ctx.data.pressed || s.ctx.data.keep_on] ∧
    (∀ t : LoopState, t.processing = true → t.ctx.data.keep_on = false →
      (main_loop outcomes [some (keyEvent InputKeyOk InputTypeShort),
          some (keyEvent InputKeyOk InputTypeRelease)] t).ctx.data.keep_on = true ∧
      (main_loop outcomes [some (keyEvent InputKeyOk InputTypeShort),
          some (keyEvent InputKeyOk InputTypeRelease)] t).ctx.data.short_expect_release
        = false ∧
      (main_loop outcomes [some (keyEvent InputKeyOk InputTypeShort),
          some (keyEvent InputKeyOk InputTypeRelease)] t).requests
        = t.requests ++ [true, true]) := by
  rcases event with ⟨⟨⟩, ⟨k, ty⟩⟩
  simp only at hkey htype
  subst hkey
  have hb : s.ctx.data.toButtonState.shortPressExpectRelease = true := hflag
  refine ⟨?_, ?_, ?_, ?_, ?_, ?_⟩
  · rcases htype with ht | ht <;> subst ht <;>
      simp [loop_body_some, table_step, AppData.withFlags, hb]
  · rcases htype with ht | ht <;> subst ht <;>
      simp [loop_body_some, table_step, AppData.withFlags, hflag, AppData.toButtonState]
  · rcases htype with ht | ht <;> subst ht <;>
      simp [loop_body_some, table_step, AppData.withFlags, hflag, AppData.toButtonState]
  · simp [loop_body_some, AppData.withFlags]
  · rcases htype with ht | ht <;> subst ht <;>
      simp [loop_body_some, table_step, hflag, ButtonState.outputSignal,
        AppData.toButtonState]
  · intro t ht hko
    simp [main_loop, loop_body_some, ht, keyEvent, table_step, AppData.withFlags,
      AppData.toButtonState, ButtonState.outputSignal, hko]

/-- Worked example of C9: the flags after a short click that turned keep-on on,
then the trailing Ok+Release. -/
theorem C9_absorbed_release_witness :
    (loop_body always_ok (some (keyEvent InputKeyOk InputTypeRelease))
      { ctx := { mutex := mutex_free,
                 data := { buffer := "", pressed := false, keep_on := true,
                           short_expect_release := true } },
        hw := hw_on, processing := true, requests := [false, true],
        repaints := 1 }).ctx.data.short_expect_release = false ∧
    (loop_body always_ok (some (keyEvent InputKeyOk InputTypeRelease))
      { ctx := { mutex := mutex_free,
                 data := { buffer := "", pressed := false, keep_on := true,
                           short_expect_release := true } },
        hw := hw_on, processing := true, requests := [false, true],
        repaints := 1 }).requests = [false, true] ++ [false || true] :=
  ⟨(C9_absorbed_release always_ok _ (keyEvent InputKeyOk InputTypeRelease) rfl rfl
      (Or.inl rfl)).1,
   (C9_absorbed_release always_ok _ (keyEvent InputKeyOk InputTypeRelease) rfl rfl
      (Or.inl rfl)).2.2.2.2.1⟩

/-- C10: for every state, one pass of the loop body on Ok+Short negates
`keep_on`, sets `pressed` to false and `short_expect_release` to true, and
the request it makes equals the new `keep_on`. Started with all flags false,
the application handling Ok+Short alone ends with `keep_on` true, `pressed`
false, `short_expect_release` true and requests an enabled output. -/
theorem C10_short_press_toggle (outcomes : Nat → Bool) (s : LoopState) (hw : Hw)
    (mutex : FuriMutex) (mem : AppData) :
    (loop_body outcomes (some (keyEvent InputKeyOk InputTypeShort)) s).ctx.data.keep_on
      = !s.ctx.data.keep_on ∧
    (loop_body outcomes (some (keyEvent InputKeyOk InputTypeShort)) s).ctx.data.pressed
      = false ∧
    (loop_body outcomes
      (some (keyEvent InputKeyOk InputTypeShort)) s).ctx.data.short_expect_release = true ∧
    (loop_body outcomes (some (keyEvent InputKeyOk InputTypeShort)) s).requests
      = s.requests ++
        [(loop_body outcomes (some (keyEvent InputKeyOk InputTypeShort)) s).ctx.data.keep_on] ∧
    (laser_pointer_app outcomes hw mutex
      (mem.withFlags { pressed := false, keepOn := false, shortPressExpectRelease := false })
      [some (keyEvent InputKeyOk InputTypeShort)]).final.ctx.data
      = { buffer := "", pressed := false, keep_on := true, short_expect_release := true } ∧
    (laser_pointer_app outcomes hw mutex
      (mem.withFlags { pressed := false, keepOn := false, shortPressExpectRelease := false })
      [some (keyEvent InputKeyOk InputTypeShort)]).final.requests = [false, true] := by
  refine ⟨?_, ?_, ?_, ?_, ?_, ?_⟩ <;>
    simp [laser_pointer_app, main_loop, loop_body_some, keyEvent, table_step,
      AppData.withFlags, AppData.toButtonState, ButtonState.outputSignal]

/-! ## Further lemmas on the event loop -/

/-- A delivered event moves the control part of the loop state (context,
`processing`, request log, repaint count) in a way that depends neither on
the hardware state nor on the outcomes of the enable primitive. -/
theorem loop_body_indep (outcomes1 outcomes2 : Nat → Bool) (got : Option AppEvent)
    (s1 s2 : LoopState) (hctx : s1.ctx = s2.ctx) (hproc : s1.processing = s2.processing)
    (hreq : s1.requests = s2.requests) (hrep : s1.repaints = s2.repaints) :
    (loop_body outcomes1 got s1).ctx = (loop_body outcomes2 got s2).ctx ∧
    (loop_body outcomes1 got s1).processing = (loop_body outcomes2 got s2).processing ∧
    (loop_body outcomes1 got s1).requests = (loop_body outcomes2 got s2).requests ∧
    (loop_body outcomes1 got s1).repaints = (loop_body outcomes2 got s2).repaints := by
  cases got with
  | none => simp [loop_body, hctx, hreq, hrep]
  | some e => simp [loop_body_some, hctx, hproc, hreq, hrep]

/-- The control part of the loop state after any batch of queue results does
not depend on the hardware. -/
theorem main_loop_indep (outcomes1 outcomes2 : Nat → Bool) (queue : List (Option AppEvent))
    (s1 s2 : LoopState) (hctx : s1.ctx = s2.ctx) (hproc : s1.processing = s2.processing)
    (hreq : s1.requests = s2.requests) (hrep : s1.repaints = s2.repaints) :
    (main_loop outcomes1 queue s1).ctx = (main_loop outcomes2 queue s2).ctx ∧
    (main_loop outcomes1 queue s1).processing = (main_loop outcomes2 queue s2).processing ∧
    (main_loop outcomes1 queue s1).requests = (main_loop outcomes2 queue s2).requests ∧
    (main_loop outcomes1 queue s1).repaints = (main_loop outcomes2 queue s2).repaints := by
  induction queue generalizing s1 s2 with
  | nil => exact ⟨hctx, hproc, hreq, hrep⟩
  | cons got rest ih =>
    obtain ⟨h1, h2, h3, h4⟩ :=
      loop_body_indep outcomes1 outcomes2 got s1 s2 hctx hproc hreq hrep
    simp only [main_loop]
    rw [h2]
    by_cases hp : (loop_body outcomes2 got s2).processing = true
    · simp only [hp, if_true]
      exact ih _ _ h1 h2 h3 h4
    · simp only [hp]
      exact ⟨h1, h2, h3, h4⟩

/-- The loop over a batch without Back followed by a failed queue read: the
loop stops there and nothing else changes. -/
theorem main_loop_fail (outcomes : Nat → Bool) (es : List AppEvent)
    (rest : List (Option AppEvent)) (s : LoopState) (hs : s.processing = true)
    (h : ∀ x ∈ es, x.input.key ≠ InputKeyBack) :
    main_loop outcomes (es.map some ++ none :: rest) s =
      { main_loop outcomes (es.map some) s with processing := false } := by
  have hp : (main_loop outcomes (es.map some) s).processing = true := by
    rw [main_loop_noBack outcomes es s hs h]
  rw [main_loop_append outcomes _ _ s hs, hp]
  simp [main_loop, loop_body]

/-- With an enable primitive that always succeeds, the output after a driver
call equals the request. -/
theorem attempt_reliable (outcomes : Nat → Bool) (hrel : ∀ k, outcomes k = true)
    (enable : Bool) (hw : Hw) :
    (attempt_set_5v_state outcomes enable hw).2.otg_enabled = enable := by
  cases enable with
  | false => exact attempt_false_off outcomes hw
  | true =>
    cases hon : hw.otg_enabled with
    | true => rw [attempt_noop outcomes true hw hon]; exact hon
    | false =>
      obtain ⟨h1, -, -, -, -, h6, -, -, h9⟩ := attempt_enable_spec outcomes hw hon
      rw [h9]
      exact h6.mpr ⟨0, by omega, hrel _⟩

/-- The texts `render_callback` adds to the surface and the context it leaves
when the lock is obtained. -/
theorem render_callback_acquired (canvas : Canvas) (ctx : AppContext)
    (h : furi_mutex_acquire ctx.mutex (some 200) = FuriStatusOk) :
    render_callback canvas ctx =
      ({ font := Font.FontSecondary,
         drawn := canvas.drawn ++
           [title_text,
            status_text ("State: " ++
              (if ctx.data.keep_on then "ON (Keep ON)"
               else if ctx.data.pressed then "ON" else "OFF"))] },
       { mutex := ctx.mutex,
         data := { ctx.data with
           buffer := "State: " ++
             (if ctx.data.keep_on then "ON (Keep ON)"
              else if ctx.data.pressed then "ON" else "OFF") } }) := by
  simp [render_callback, h, canvas_set_font, canvas_draw_str_aligned, title_text,
    status_text]

/-- The call `render_callback` when the lock is not obtained: nothing changes. -/
theorem render_callback_timeout (canvas : Canvas) (ctx : AppContext)
    (h : furi_mutex_acquire ctx.mutex (some 200) ≠ FuriStatusOk) :
    render_callback canvas ctx = (canvas, ctx) := by
  simp [render_callback, h]

/-! ## Further properties of the event loop -/

/-- C11: from every running state with `short_expect_release` false, handling
Ok+Press and then Ok+Long leaves `pressed` true after each of the two events,
leaves `short_expect_release` false and `keep_on` unchanged after each, and
requests an enabled output after each of the two events. -/
theorem C11_long_press (outcomes : Nat → Bool) (s : LoopState)
    (hproc : s.processing = true) (hflag : s.ctx.data.short_expect_release = false) :
    (main_loop outcomes [some (keyEvent InputKeyOk InputTypePress)] s).ctx.data
      = { s.ctx.data with pressed := true } ∧
    (main_loop outcomes [some (keyEvent InputKeyOk InputTypePress)] s).requests
      = s.requests ++ [true] ∧
    (main_loop outcomes [some (keyEvent InputKeyOk InputTypePress),
        some (keyEvent InputKeyOk InputTypeLong)] s).ctx.data
      = { s.ctx.data with pressed := true } ∧
    (main_loop outcomes [some (keyEvent InputKeyOk InputTypePress),
        some (keyEvent InputKeyOk InputTypeLong)] s).ctx.data.short_expect_release = false ∧
    (main_loop outcomes [some (keyEvent InputKeyOk InputTypePress),
        some (keyEvent InputKeyOk InputTypeLong)] s).ctx.data.keep_on = s.ctx.data.keep_on ∧
    (main_loop outcomes [some (keyEvent InputKeyOk InputTypePress),
        some (keyEvent InputKeyOk InputTypeLong)] s).requests
      = s.requests ++ [true, true] := by
  refine ⟨?_, ?_, ?_, ?_, ?_, ?_⟩ <;>
    simp [main_loop, loop_body_some, hproc, hflag, keyEvent, table_step, AppData.withFlags,
      AppData.toButtonState, ButtonState.outputSignal]

/-- Worked example of C11: a long press from the all-false flags. -/
theorem C11_long_press_witness :
    (main_loop never_ok [some (keyEvent InputKeyOk InputTypePress),
        some (keyEvent InputKeyOk InputTypeLong)]
      { ctx := { mutex := mutex_free, data := mem_zero }, hw := hw_off, processing := true,
        requests := [false], repaints := 0 }).requests = [false] ++ [true, true] :=
  (C11_long_press never_ok
    { ctx := { mutex := mutex_free, data := mem_zero }, hw := hw_off, processing := true,
      requests := [false], repaints := 0 } rfl rfl).2.2.2.2.2

/-- C12: once a Back-key event of any kind is dequeued (after a batch `pre` of
events without Back), the loop terminates and the application returns 0;
whatever is queued behind the Back event is not handled (the final state is
the one reached with nothing queued behind it, and exactly the events up to
and including Back were handled); the Back event changes none of the flags,
so the final context equals the one just before Back. -/
theorem C12_back_stops_loop (outcomes : Nat → Bool) (hw : Hw) (mutex : FuriMutex)
    (mem : AppData) (pre : List AppEvent) (back : AppEvent) (rest : List (Option AppEvent))
    (hpre : ∀ e ∈ pre, e.input.key ≠ InputKeyBack)
    (hback : back.input.key = InputKeyBack) :
    laser_pointer_app outcomes hw mutex mem (pre.map some ++ some back :: rest)
      = laser_pointer_app outcomes hw mutex mem (pre.map some ++ [some back]) ∧
    (laser_pointer_app outcomes hw mutex mem (pre.map some ++ some back :: rest)).returned
      = some 0 ∧
    (laser_pointer_app outcomes hw mutex mem
      (pre.map some ++ some back :: rest)).final.processing = false ∧
    (laser_pointer_app outcomes hw mutex mem (pre.map some ++ some back :: rest)).final.repaints
      = pre.length + 1 ∧
    (laser_pointer_app outcomes hw mutex mem (pre.map some ++ some back :: rest)).final.ctx
      = (laser_pointer_app outcomes hw mutex mem (pre.map some)).final.ctx ∧
    (laser_pointer_app outcomes hw mutex mem
        (pre.map some ++ some back :: rest)).final.ctx.data.toButtonState
      = table_run mem.toButtonState (pre.map AppEvent.input) := by
  have hfin := app_then outcomes hw mutex mem pre back rest hpre (Or.inr hback)
  have hfin0 := app_then outcomes hw mutex mem pre back [] hpre (Or.inr hback)
  have hstep := table_step_back
    (laser_pointer_app outcomes hw mutex mem (pre.map some)).final.ctx.data.toButtonState
    back.input hback
  have hret : ∀ q, laser_pointer_app outcomes hw mutex mem q
      = { final := (laser_pointer_app outcomes hw mutex mem q).final,
          returned := if (laser_pointer_app outcomes hw mutex mem q).final.processing
            then none else some 0 } := fun _ => rfl
  obtain ⟨-, -, hdata, hrep⟩ := app_noBack outcomes hw mutex mem pre hpre
  refine ⟨?_, ?_, ?_, ?_, ?_, ?_⟩
  · rw [hret (pre.map some ++ some back :: rest), hret (pre.map some ++ [some back]),
      hfin, hfin0]
  · rw [hret, hfin, loop_body_some]
    simp [hback]
  · rw [hfin, loop_body_some]
    simp [hback]
  · rw [hfin, loop_body_some, hrep]
  · rw [hfin, loop_body_some, hstep]
    rfl
  · rw [hfin, loop_body_some, hstep, ← hdata]
    rfl

/-- Worked example of C12: a short click, then Back with two more events
queued behind it. -/
theorem C12_back_stops_loop_witness :
    (∀ e ∈ [keyEvent InputKeyOk InputTypeShort], e.input.key ≠ InputKeyBack) ∧
    (keyEvent InputKeyBack InputTypeLong).input.key = InputKeyBack ∧
    laser_pointer_app always_ok hw_off mutex_free mem_zero
      ([keyEvent InputKeyOk InputTypeShort].map some ++
        some (keyEvent InputKeyBack InputTypeLong) ::
          [some (keyEvent InputKeyOk InputTypeShort), none])
      = laser_pointer_app always_ok hw_off mutex_free mem_zero
          ([keyEvent InputKeyOk InputTypeShort].map some ++
            [some (keyEvent InputKeyBack InputTypeLong)]) :=
  ⟨by decide, rfl,
   (C12_back_stops_loop always_ok hw_off mutex_free mem_zero
      [keyEvent InputKeyOk InputTypeShort] (keyEvent InputKeyBack InputTypeLong)
      [some (keyEvent InputKeyOk InputTypeShort), none] (by decide) rfl).1⟩

/-- C13: for every queue content and any two hardware behaviours (outcome
functions and initial hardware states), the loop reaches the same context,
the same value of `processing`, the same list of arguments passed to
`attempt_set_5v_state`, the same number of handled events and the same
return status, after the whole queue and after every initial part of it; and
whatever the hardware does, the loop is still running after any batch of
events without Back. -/
theorem C13_loop_independent_of_hardware (outcomes1 outcomes2 : Nat → Bool) (hw1 hw2 : Hw)
    (mutex : FuriMutex) (mem : AppData) (queue : List (Option AppEvent)) :
    (∀ n,
      (laser_pointer_app outcomes1 hw1 mutex mem (queue.take n)).final.ctx
        = (laser_pointer_app outcomes2 hw2 mutex mem (queue.take n)).final.ctx ∧
      (laser_pointer_app outcomes1 hw1 mutex mem (queue.take n)).final.processing
        = (laser_pointer_app outcomes2 hw2 mutex mem (queue.take n)).final.processing ∧
      (laser_pointer_app outcomes1 hw1 mutex mem (queue.take n)).final.requests
        = (laser_pointer_app outcomes2 hw2 mutex mem (queue.take n)).final.requests ∧
      (laser_pointer_app outcomes1 hw1 mutex mem (queue.take n)).final.repaints
        = (laser_pointer_app outcomes2 hw2 mutex mem (queue.take n)).final.repaints ∧
      (laser_pointer_app outcomes1 hw1 mutex mem (queue.take n)).returned
        = (laser_pointer_app outcomes2 hw2 mutex mem (queue.take n)).returned) ∧
    (laser_pointer_app outcomes1 hw1 mutex mem queue).final.ctx
      = (laser_pointer_app outcomes2 hw2 mutex mem queue).final.ctx ∧
    (laser_pointer_app outcomes1 hw1 mutex mem queue).final.processing
      = (laser_pointer_app outcomes2 hw2 mutex mem queue).final.processing ∧
    (laser_pointer_app outcomes1 hw1 mutex mem queue).final.requests
      = (laser_pointer_app outcomes2 hw2 mutex mem queue).final.requests ∧
    (laser_pointer_app outcomes1 hw1 mutex mem queue).final.repaints
      = (laser_pointer_app outcomes2 hw2 mutex mem queue).final.repaints ∧
    (laser_pointer_app outcomes1 hw1 mutex mem queue).returned
      = (laser_pointer_app outcomes2 hw2 mutex mem queue).returned ∧
    (∀ es : List AppEvent, (∀ e ∈ es, e.input.key ≠ InputKeyBack) →
      (laser_pointer_app outcomes1 hw1 mutex mem (es.map some)).final.processing = true ∧
      (laser_pointer_app outcomes1 hw1 mutex mem (es.map some)).final.repaints
        = es.length) := by
  have key : ∀ q : List (Option AppEvent),
      (laser_pointer_app outcomes1 hw1 mutex mem q).final.ctx
        = (laser_pointer_app outcomes2 hw2 mutex mem q).final.ctx ∧
      (laser_pointer_app outcomes1 hw1 mutex mem q).final.processing
        = (laser_pointer_app outcomes2 hw2 mutex mem q).final.processing ∧
      (laser_pointer_app outcomes1 hw1 mutex mem q).final.requests
        = (laser_pointer_app outcomes2 hw2 mutex mem q).final.requests ∧
      (laser_pointer_app outcomes1 hw1 mutex mem q).final.repaints
        = (laser_pointer_app outcomes2 hw2 mutex mem q).final.repaints ∧
      (laser_pointer_app outcomes1 hw1 mutex mem q).returned
        = (laser_pointer_app outcomes2 hw2 mutex mem q).returned := by
    intro q
    obtain ⟨h1, h2, h3, h4⟩ := main_loop_indep outcomes1 outcomes2 q
      { ctx := { mutex := mutex, data := { mem with buffer := "" } },
        hw := (attempt_set_5v_state outcomes1 false hw1).2,
        processing := true, requests := [false], repaints := 0 }
      { ctx := { mutex := mutex, data := { mem with buffer := "" } },
        hw := (attempt_set_5v_state outcomes2 false hw2).2,
        processing := true, requests := [false], repaints := 0 } rfl rfl rfl rfl
    refine ⟨h1, h2, h3, h4, ?_⟩
    simp only [laser_pointer_app]
    rw [h2]
  obtain ⟨k1, k2, k3, k4, k5⟩ := key queue
  refine ⟨fun n => key (queue.take n), k1, k2, k3, k4, k5, ?_⟩
  intro es hes
  obtain ⟨hp, -, -, hr⟩ := app_noBack outcomes1 hw1 mutex mem es hes
  exact ⟨hp, hr⟩

/-- C16 (counterexample): from the same startup state, a failed queue read and
a dequeued Back key both stop the loop, but the Back key makes one more
driver request and one repaint, which the failed read does not. -/
theorem C16_failed_get_counterexample :
    (laser_pointer_app always_ok hw_off mutex_free mem_zero [none]).final.requests
      = [false] ∧
    (laser_pointer_app always_ok hw_off mutex_free mem_zero [none]).final.repaints = 0 ∧
    (laser_pointer_app always_ok hw_off mutex_free mem_zero
      [some (keyEvent InputKeyBack InputTypeShort)]).final.requests = [false, false] ∧
    (laser_pointer_app always_ok hw_off mutex_free mem_zero
      [some (keyEvent InputKeyBack InputTypeShort)]).final.repaints = 1 := by
  decide

/-- C16 (amended): after the same batch `pre` of events without Back, a failed
`furi_message_queue_get` and a dequeued Back key both stop the loop, both
leave the context (the flags) as it was and the application returns 0 in
both cases. They differ in what is done before teardown: the failed read
makes no driver request and no repaint and leaves the hardware untouched,
while the Back key still makes the request
`attempt_set_5v_state(pressed || keep_on)` and one repaint. -/
theorem C16_failed_get_versus_back (outcomes : Nat → Bool) (hw : Hw) (mutex : FuriMutex)
    (mem : AppData) (pre : List AppEvent) (back : AppEvent)
    (rest1 rest2 : List (Option AppEvent))
    (hpre : ∀ e ∈ pre, e.input.key ≠ InputKeyBack)
    (hback : back.input.key = InputKeyBack) :
    ((laser_pointer_app outcomes hw mutex mem (pre.map some ++ none :: rest1)).returned
        = some 0 ∧
      (laser_pointer_app outcomes hw mutex mem (pre.map some ++ some back :: rest2)).returned
        = some 0) ∧
    ((laser_pointer_app outcomes hw mutex mem (pre.map some ++ none :: rest1)).final.ctx
        = (laser_pointer_app outcomes hw mutex mem (pre.map some)).final.ctx ∧
      (laser_pointer_app outcomes hw mutex mem (pre.map some ++ some back :: rest2)).final.ctx
        = (laser_pointer_app outcomes hw mutex mem (pre.map some)).final.ctx) ∧
    ((laser_pointer_app outcomes hw mutex mem (pre.map some ++ none :: rest1)).final.requests
        = (laser_pointer_app outcomes hw mutex mem (pre.map some)).final.requests ∧
      (laser_pointer_app outcomes hw mutex mem (pre.map some ++ none :: rest1)).final.repaints
        = (laser_pointer_app outcomes hw mutex mem (pre.map some)).final.repaints ∧
      (laser_pointer_app outcomes hw mutex mem (pre.map some ++ none :: rest1)).final.hw
        = (laser_pointer_app outcomes hw mutex mem (pre.map some)).final.hw) ∧
    ((laser_pointer_app outcomes hw mutex mem
          (pre.map some ++ some back :: rest2)).final.requests
        = (laser_pointer_app outcomes hw mutex mem (pre.map some)).final.requests ++
          [(laser_pointer_app outcomes hw mutex mem (pre.map some)).final.ctx.data.pressed ||
           (laser_pointer_app outcomes hw mutex mem (pre.map some)).final.ctx.data.keep_on] ∧
      (laser_pointer_app outcomes hw mutex mem
          (pre.map some ++ some back :: rest2)).final.repaints
        = (laser_pointer_app outcomes hw mutex mem (pre.map some)).final.repaints + 1) := by
  have hfail : (laser_pointer_app outcomes hw mutex mem (pre.map some ++ none :: rest1)).final
      = { (laser_pointer_app outcomes hw mutex mem (pre.map some)).final with
          processing := false } := by
    simp only [laser_pointer_app]
    exact main_loop_fail outcomes pre rest1 _ rfl hpre
  have hfin := app_then outcomes hw mutex mem pre back rest2 hpre (Or.inr hback)
  have hstep := table_step_back
    (laser_pointer_app outcomes hw mutex mem (pre.map some)).final.ctx.data.toButtonState
    back.input hback
  have hret : ∀ q, (laser_pointer_app outcomes hw mutex mem q).returned
      = if (laser_pointer_app outcomes hw mutex mem q).final.processing
          then none else some 0 := fun _ => rfl
  refine ⟨⟨?_, ?_⟩, ⟨?_, ?_⟩, ⟨?_, ?_, ?_⟩, ⟨?_, ?_⟩⟩
  · rw [hret, hfail]; rfl
  · rw [hret, hfin, loop_body_some]; simp [hback]
  · rw [hfail]
  · rw [hfin, loop_body_some, hstep]; rfl
  · rw [hfail]
  · rw [hfail]
  · rw [hfail]
  · rw [hfin, loop_body_some, hstep]; rfl
  · rw [hfin, loop_body_some]

/-- Worked example of C16 (amended): keep-on was switched on by a short click;
the failed read leaves the two requests made so far, the Back key adds a
third one. -/
theorem C16_failed_get_versus_back_witness :
    (∀ e ∈ [keyEvent InputKeyOk InputTypeShort], e.input.key ≠ InputKeyBack) ∧
    (keyEvent InputKeyBack InputTypePress).input.key = InputKeyBack ∧
    ((laser_pointer_app always_ok hw_off mutex_free mem_zero
        ([keyEvent InputKeyOk InputTypeShort].map some ++ none :: [])).returned = some 0 ∧
      (laser_pointer_app always_ok hw_off mutex_free mem_zero
        ([keyEvent InputKeyOk InputTypeShort].map some ++
          some (keyEvent InputKeyBack InputTypePress) :: [])).returned = some 0) ∧
    (laser_pointer_app always_ok hw_off mutex_free mem_zero
      ([keyEvent InputKeyOk InputTypeShort].map some ++ none :: [])).final.requests
      = [false, true] ∧
    (laser_pointer_app always_ok hw_off mutex_free mem_zero
      ([keyEvent InputKeyOk InputTypeShort].map some ++
        some (keyEvent InputKeyBack InputTypePress) :: [])).final.requests
      = [false, true, true] :=
  ⟨by decide, rfl,
   (C16_failed_get_versus_back always_ok hw_off mutex_free mem_zero
      [keyEvent InputKeyOk InputTypeShort] (keyEvent InputKeyBack InputTypePress) [] []
      (by decide) rfl).1,
   by decide, by decide⟩

/-- C17: for every prior hardware state and every hardware behaviour, after
the startup call `attempt_set_5v_state(false)` of `laser_pointer_app` and
before any event is handled the output is disabled; that call is the only
driver request made so far. -/
theorem C17_startup_output_off (outcomes : Nat → Bool) (hw : Hw) (mutex : FuriMutex)
    (mem : AppData) :
    (attempt_set_5v_state outcomes false hw).2.otg_enabled = false ∧
    (laser_pointer_app outcomes hw mutex mem []).final.hw
      = (attempt_set_5v_state outcomes false hw).2 ∧
    (laser_pointer_app outcomes hw mutex mem []).final.hw.otg_enabled = false ∧
    (laser_pointer_app outcomes hw mutex mem []).final.requests = [false] ∧
    (laser_pointer_app outcomes hw mutex mem []).final.repaints = 0 :=
  ⟨attempt_false_off outcomes hw, rfl, attempt_false_off outcomes hw, rfl, rfl⟩

/-- C19: with reliable hardware (every call of the enable primitive succeeds),
after one pass of the loop body on any delivered event, from any state, the
output equals `pressed || keep_on` of the flags after that event; hence for
every initial hardware state, initial flags and non-empty sequence of handled
events (a Back key can only be the last handled one) the output after the
last event equals `pressed || keep_on` of the current flags. -/
theorem C19_output_tracks_flags (outcomes : Nat → Bool) (hrel : ∀ k, outcomes k = true) :
    (∀ (s : LoopState) (e : AppEvent),
      (loop_body outcomes (some e) s).hw.otg_enabled
        = ((loop_body outcomes (some e) s).ctx.data.pressed ||
           (loop_body outcomes (some e) s).ctx.data.keep_on)) ∧
    (∀ (hw : Hw) (mutex : FuriMutex) (mem : AppData) (es : List AppEvent),
      es ≠ [] → (∀ e ∈ es.dropLast, e.input.key ≠ InputKeyBack) →
      (laser_pointer_app outcomes hw mutex mem (es.map some)).final.hw.otg_enabled
        = ((laser_pointer_app outcomes hw mutex mem (es.map some)).final.ctx.data.pressed ||
           (laser_pointer_app outcomes hw mutex mem (es.map some)).final.ctx.data.keep_on) ∧
      (laser_pointer_app outcomes hw mutex mem (es.map some)).final.repaints
        = es.length) := by
  have hbody : ∀ (s : LoopState) (e : AppEvent),
      (loop_body outcomes (some e) s).hw.otg_enabled
        = ((loop_body outcomes (some e) s).ctx.data.pressed ||
           (loop_body outcomes (some e) s).ctx.data.keep_on) := by
    intro s e
    rw [loop_body_some]
    simp only
    rw [attempt_reliable outcomes hrel]
    rfl
  refine ⟨hbody, ?_⟩
  intro hw mutex mem es hne h
  rcases List.eq_nil_or_concat es with hnil | ⟨pre, e, hes⟩
  · exact absurd hnil hne
  · rw [List.concat_eq_append] at hes
    subst hes
    have hpre : ∀ x ∈ pre, x.input.key ≠ InputKeyBack := by
      simpa using h
    have hfin := app_then outcomes hw mutex mem pre e [] hpre (Or.inl rfl)
    have hq : (pre ++ [e]).map some = pre.map some ++ [some e] := by simp
    rw [hq, hfin]
    refine ⟨hbody _ e, ?_⟩
    rw [loop_body_some, (app_noBack outcomes hw mutex mem pre hpre).2.2.2]
    simp

/-- Worked example of C19: the output is on at startup; press, release, short
click and Back are handled, keep-on is set and the output is on. -/
theorem C19_output_tracks_flags_witness :
    (∀ k, always_ok k = true) ∧
    (laser_pointer_app always_ok hw_on mutex_free mem_zero
      ([keyEvent InputKeyOk InputTypePress, keyEvent InputKeyOk InputTypeRelease,
        keyEvent InputKeyOk InputTypeShort,
        keyEvent InputKeyBack InputTypeShort].map some)).final.hw.otg_enabled
      = ((laser_pointer_app always_ok hw_on mutex_free mem_zero
          ([keyEvent InputKeyOk InputTypePress, keyEvent InputKeyOk InputTypeRelease,
            keyEvent InputKeyOk InputTypeShort,
            keyEvent InputKeyBack InputTypeShort].map some)).final.ctx.data.pressed ||
         (laser_pointer_app always_ok hw_on mutex_free mem_zero
          ([keyEvent InputKeyOk InputTypePress, keyEvent InputKeyOk InputTypeRelease,
            keyEvent InputKeyOk InputTypeShort,
            keyEvent InputKeyBack InputTypeShort].map some)).final.ctx.data.keep_on) ∧
    (laser_pointer_app always_ok hw_on mutex_free mem_zero
      ([keyEvent InputKeyOk InputTypePress, keyEvent InputKeyOk InputTypeRelease,
        keyEvent InputKeyOk InputTypeShort,
        keyEvent InputKeyBack InputTypeShort].map some)).final.hw.otg_enabled = true :=
  ⟨fun _ => rfl,
   ((C19_output_tracks_flags always_ok (fun _ => rfl)).2 hw_on mutex_free mem_zero
      [keyEvent InputKeyOk InputTypePress, keyEvent InputKeyOk InputTypeRelease,
        keyEvent InputKeyOk InputTypeShort, keyEvent InputKeyBack InputTypeShort]
      (by decide) (by decide)).1,
   by decide⟩

/-- C20: from every running state with `short_expect_release` false, handling
one complete short click (Ok+Press, Ok+Short, Ok+Release) yields `pressed`
false, `short_expect_release` false and `keep_on` negated, the text buffer
being kept; handling two consecutive clicks restores the original `keep_on`,
and gives back exactly the original data when `pressed` was false. -/
theorem C20_short_click (outcomes : Nat → Bool) (s : LoopState)
    (hproc : s.processing = true) (hflag : s.ctx.data.short_expect_release = false) :
    (main_loop outcomes short_click s).ctx.data
      = { buffer := s.ctx.data.buffer, pressed := false, keep_on := !s.ctx.data.keep_on,
          short_expect_release := false } ∧
    (main_loop outcomes (short_click ++ short_click) s).ctx.data
      = { buffer := s.ctx.data.buffer, pressed := false, keep_on := s.ctx.data.keep_on,
          short_expect_release := false } ∧
    (s.ctx.data.pressed = false →
      (main_loop outcomes (short_click ++ short_click) s).ctx.data = s.ctx.data) ∧
    (main_loop outcomes (short_click ++ short_click) s).processing = true := by
  have h2 : (main_loop outcomes (short_click ++ short_click) s).ctx.data
      = { buffer := s.ctx.data.buffer, pressed := false, keep_on := s.ctx.data.keep_on,
          short_expect_release := false } := by
    simp [short_click, main_loop, loop_body_some, hproc, keyEvent, table_step,
      AppData.withFlags, AppData.toButtonState]
  refine ⟨?_, h2, ?_, ?_⟩
  · simp [short_click, main_loop, loop_body_some, hproc, keyEvent, table_step,
      AppData.withFlags, AppData.toButtonState]
  · intro hp
    rw [h2]
    rcases s with ⟨⟨m, ⟨buf, p, ko, se⟩⟩, hw, pr, rq, rp⟩
    simp only at hp hflag
    subst hp hflag
    rfl
  · simp [short_click, main_loop, loop_body_some, hproc, keyEvent]

/-- Worked example of C20: two short clicks from the all-false flags. -/
theorem C20_short_click_witness :
    (main_loop always_ok (short_click ++ short_click)
      { ctx := { mutex := mutex_free, data := mem_zero }, hw := hw_off, processing := true,
        requests := [false], repaints := 0 }).ctx.data = mem_zero ∧
    (main_loop always_ok short_click
      { ctx := { mutex := mutex_free, data := mem_zero }, hw := hw_off, processing := true,
        requests := [false], repaints := 0 }).ctx.data.keep_on = true :=
  ⟨(C20_short_click always_ok
      { ctx := { mutex := mutex_free, data := mem_zero }, hw := hw_off, processing := true,
        requests := [false], repaints := 0 } rfl rfl).2.2.1 rfl,
   by decide⟩

/-! ## Properties of `render_callback` -/

/-- C14: when `render_callback` obtains the lock, it draws the title and then
the status line, whose text (also left in the buffer) is exactly
`State: ON (Keep ON)` if `keep_on` is true, otherwise `State: ON` if
`pressed` is true, otherwise `State: OFF`; so the status line reads
`State: OFF` if and only if `pressed || keep_on` is false. -/
theorem C14_status_line (canvas : Canvas) (ctx : AppContext)
    (h : furi_mutex_acquire ctx.mutex (some 200) = FuriStatusOk) :
    (render_callback canvas ctx).1.drawn
      = canvas.drawn ++
        [title_text,
         status_text (if ctx.data.keep_on then "State: ON (Keep ON)"
           else if ctx.data.pressed then "State: ON" else "State: OFF")] ∧
    (render_callback canvas ctx).2.data.buffer
      = (if ctx.data.keep_on then "State: ON (Keep ON)"
         else if ctx.data.pressed then "State: ON" else "State: OFF") ∧
    ((render_callback canvas ctx).1.drawn.getLast? = some (status_text "State: OFF") ↔
      (ctx.data.pressed || ctx.data.keep_on) = false) := by
  rw [render_callback_acquired canvas ctx h]
  cases hk : ctx.data.keep_on <;> cases hp : ctx.data.pressed <;>
    simp [status_text, List.getLast?_append]

/-- Worked example of C14: the lock is free and only `pressed` is set. -/
theorem C14_status_line_witness :
    furi_mutex_acquire mutex_free (some 200) = FuriStatusOk ∧
    (render_callback canvas_blank
      { mutex := mutex_free,
        data := { buffer := "", pressed := true, keep_on := false,
                  short_expect_release := false } }).1.drawn
      = canvas_blank.drawn ++
        [title_text,
         status_text (if false then "State: ON (Keep ON)"
           else if true then "State: ON" else "State: OFF")] :=
  ⟨rfl,
   (C14_status_line canvas_blank
      { mutex := mutex_free,
        data := { buffer := "", pressed := true, keep_on := false,
                  short_expect_release := false } } rfl).1⟩

/-- C15 (counterexample): the lock is held by another thread for 201 ms; the
call returns without drawing anything, so the title is not drawn. -/
theorem C15_title_counterexample :
    furi_mutex_acquire mutex_busy (some 200) = FuriStatusErrorTimeout ∧
    (render_callback canvas_blank { mutex := mutex_busy, data := mem_zero }).1.drawn = [] ∧
    title_text ∉
      (render_callback canvas_blank { mutex := mutex_busy, data := mem_zero }).1.drawn := by
  decide

/-- C15 (amended): the title `Laser Pointer` is drawn by an invocation of
`render_callback` exactly when the lock is obtained within the 200 ms wait;
it is then the first text the invocation draws. When the lock times out the
invocation draws nothing. -/
theorem C15_title_iff_acquired (canvas : Canvas) (ctx : AppContext) :
    (title_text ∈ (render_callback canvas ctx).1.drawn.drop canvas.drawn.length ↔
      furi_mutex_acquire ctx.mutex (some 200) = FuriStatusOk) ∧
    (((render_callback canvas ctx).1.drawn.drop canvas.drawn.length).head? = some title_text ↔
      furi_mutex_acquire ctx.mutex (some 200) = FuriStatusOk) := by
  by_cases h : furi_mutex_acquire ctx.mutex (some 200) = FuriStatusOk
  · rw [render_callback_acquired canvas ctx h]
    simp [h]
  · rw [render_callback_timeout canvas ctx h]
    simp [h]

/-- C18: when `render_callback` cannot obtain the lock within its wait of
200 ms, it issues no draw operation (the surface is returned as it was) and
leaves the application data, flags and text buffer, unchanged. -/
theorem C18_timeout_changes_nothing (canvas : Canvas) (ctx : AppContext)
    (h : furi_mutex_acquire ctx.mutex (some 200) ≠ FuriStatusOk) :
    render_callback canvas ctx = (canvas, ctx) ∧
    (render_callback canvas ctx).1.drawn = canvas.drawn ∧
    (render_callback canvas ctx).2.data = ctx.data :=
  ⟨render_callback_timeout canvas ctx h,
   by rw [render_callback_timeout canvas ctx h],
   by rw [render_callback_timeout canvas ctx h]⟩

/-- Worked example of C18: the lock is held for 201 ms while keep-on is set and
the surface shows an earlier frame. -/
theorem C18_timeout_changes_nothing_witness :
    furi_mutex_acquire mutex_busy (some 200) ≠ FuriStatusOk ∧
    render_callback { font := Font.FontPrimary, drawn := [title_text, status_text "State: OFF"] }
        { mutex := mutex_busy,
          data := { buffer := "State: OFF", pressed := false, keep_on := true,
                    short_expect_release := true } }
      = ({ font := Font.FontPrimary, drawn := [title_text, status_text "State: OFF"] },
         { mutex := mutex_busy,
           data := { buffer := "State: OFF", pressed := false, keep_on := true,
                     short_expect_release := true } }) :=
  ⟨by decide,
   (C18_timeout_changes_nothing _ _ (by decide)).1⟩

end LaserPointer
